import Mathlib

/-!
Verification development for the plan scheduler and execution loop of the
LLM-powered server-management chatbot repository (`nodes.py`, `workflow.py`).

The Python source threads a mutable execution aggregate (`GraphState`) through
the phases select → run → resolve → continue?.  Here the state is an explicit
value, Python dictionaries are association lists with Python-dict semantics
(lookup by key, in-place overwrite of existing keys, insertion order kept),
strings stay strings, and exceptions (`KeyError`, `StopIteration`, accessing a
`None` plan) are `Except.error` results.  The external collaborators (the LLM
chains and the SQLite engine behind `cursor.execute`) are modelled as oracle
inputs carrying exactly the data the source reads from them.
-/

/-- Python-dict lookup on an association list: first entry whose key matches. -/
def alookup {α : Type} (k : String) : List (String × α) → Option α
  | [] => none
  | kv :: rest => if kv.1 == k then some kv.2 else alookup k rest

/-- Overwrite the first entry holding key `k` (Python `d[k] = v` when `k` is present). -/
def aset {α : Type} : List (String × α) → String → α → List (String × α)
  | [], _, _ => []
  | kv :: rest, k, v => if kv.1 == k then (k, v) :: rest else kv :: aset rest k v

/-- Python `d[k] = v`: overwrite when the key exists, append otherwise. -/
def dsetItem {α : Type} (d : List (String × α)) (k : String) (v : α) : List (String × α) :=
  if (alookup k d).isSome then aset d k v else d ++ [(k, v)]

/-- Python `d.update(e)`: assign every entry of `e` into `d`, in order. -/
def dictUpdate {α : Type} (d e : List (String × α)) : List (String × α) :=
  e.foldl (fun acc kv => dsetItem acc kv.1 kv.2) d

/-- Opaque JSON-like artifact payload (`models.py` values, decoded collaborator
JSON and the tabular `{"columns": ..., "rows": ...}` dictionaries built by the
SQL executor are all plain Python values of this shape). -/
inductive Value : Type where
  | nullV : Value
  | boolV : Bool → Value
  | intV : Int → Value
  | str : String → Value
  | list : List Value → Value
  | dict : List (String × Value) → Value

/-- Python truthiness of a `Value` (non-empty dict/list/string, non-zero number). -/
def truthy : Value → Bool
  | .nullV => false
  | .boolV b => b
  | .intV n => n != 0
  | .str s => s != ""
  | .list l => !l.isEmpty
  | .dict l => !l.isEmpty

/-- Modelled from the spec: `models.py` is not among the sources; §3 of the spec
defines NodeStatus as `state ∈ {pending, running, succeeded, failed}`,
`attempts` and optional `lastError`, initialized to `{pending, 0, none}`. -/
structure NodeStatus where
  state : String := "pending"
  attempts : Nat := 0
  last_error : Option String := none
deriving Repr, DecidableEq

/-- One plan node as decoded from the planner JSON (`requires`/`produces` stay
CSV strings exactly as the source stores and re-parses them). -/
structure NodeSpec where
  id : String
  type : String
  label : String := ""
  requires : String := ""
  produces : String := ""
  input : String := ""
deriving Repr, DecidableEq

/-- The plan dictionary built by `planner`: version, decoded node list, parsed edges. -/
structure Plan where
  version : String
  nodes : List NodeSpec
  edges : List (String × String)
deriving Repr, DecidableEq

/-- The `stats` dictionary of a successful `_exec_sqlite` call. -/
structure Stats where
  elapsed_ms : Nat
  rows_affected : Int
deriving Repr, DecidableEq

/-- The `state.last_output` dictionary (keys absent in a given branch are `none`). -/
structure LastOutput where
  status : String
  artifacts : Value
  notes : Option String := none
  stats : Option Stats := none
  error : Option String := none

/-- One entry of `state.issues`: the source appends `{"reason": ...}` dictionaries. -/
structure Issue where
  reason : String
deriving Repr, DecidableEq

/-- Modelled from the spec: `models.py` is not among the sources; §3's
ExecutionState aggregate lists exactly the fields the scheduler code reads and
writes (plan, status table, artifact store, current selection, last raw output,
SQL statement log, global attempt total, accumulated issues).  Fields that only
feed prompt text (user request, contexts, schema) are absorbed by the oracle. -/
structure GraphState where
  plan : Option Plan := none
  node_status : List (String × NodeStatus) := []
  artifacts : List (String × Value) := []
  current_node_id : Option String := none
  last_output : Option LastOutput := none
  executed_queries : List String := []
  total_attempts : Nat := 0
  issues : List Issue := []

/-- Result of `cursor.execute` + fetch on the external SQLite engine: column
names from `cursor.description`, fetched rows, and `cursor.rowcount`. -/
structure DbCursor where
  columns : List String
  rows : List (List Value)
  rowcount : Int

/-- The engine either raises (caught by `_exec_sqlite`) or yields a cursor. -/
inductive DbResult : Type where
  | exn : String → DbResult
  | ok : DbCursor → DbResult

/-- Structured-output reply of the analyzer / result-analyzer chains.
`outputs` is `none` when `json.loads(out.outputs)` would raise (malformed JSON),
otherwise the decoded Python value. -/
structure AnalyzerOut where
  status : String
  outputs : Option Value := none
  notes : Option String := some ""

/-- Structured-output reply of the SQL-generation chain. -/
structure SQLOut where
  sql : String
  notes : Option String := some ""

/-- External collaborators for one node execution: the three LLM chains, the
`SQLITE_DB_PATH` environment lookup, `os.path.exists`, the SQLite engine and
the wall clock, each modelled by the exact data the source reads from it. -/
structure Oracle where
  analyzer : AnalyzerOut
  sqlGen : SQLOut
  dbPath : Option String
  dbPathExists : Bool
  db : DbResult
  elapsedMs : Nat
  sqlResult : AnalyzerOut

/-- The dictionary returned by `_exec_sqlite` (absent keys are `none`). -/
structure ExecResult where
  status : String
  result : Option Value := none
  stats : Option Stats := none
  error : Option String := none

/-- Python whitespace test used by `str.strip` (ASCII whitespace). -/
def wsChar (c : Char) : Bool :=
  c == ' ' || c == '\t' || c == '\n' || c == '\r' || c == '\x0b' || c == '\x0c'

/-- Python `str.strip()`. -/
def pyTrim (s : String) : String :=
  String.mk (((s.data.dropWhile wsChar).reverse.dropWhile wsChar).reverse)

/-- Split a character list at every occurrence of `sep` (Python `str.split(sep)`). -/
def splitChar (sep : Char) : List Char → List (List Char)
  | [] => [[]]
  | c :: rest =>
    match splitChar sep rest with
    | [] => [[c]]
    | g :: gs => if c == sep then [] :: g :: gs else (c :: g) :: gs

/-- Python `s.split(sep)` for a one-character separator. -/
def pySplit (sep : Char) (s : String) : List String :=
  (splitChar sep s.data).map String.mk

/-- Whether the first list is a leading segment of the second. -/
def isPrefL : List Char → List Char → Bool
  | [], _ => true
  | _ :: _, [] => false
  | p :: ps, c :: cs => p == c && isPrefL ps cs

/-- Python `s.startswith(pre)`. -/
def pyStartsWith (s pre : String) : Bool :=
  isPrefL pre.data s.data

/-- Python `s.upper()` (ASCII). -/
def pyUpper (s : String) : String :=
  String.mk (s.data.map Char.toUpper)

/-- Python `s.lower()` (ASCII). -/
def pyLower (s : String) : String :=
  String.mk (s.data.map Char.toLower)

/-- Interleave `sep` between the groups (Python `sep.join`). -/
def joinChar (sep : Char) : List (List Char) → List Char
  | [] => []
  | [g] => g
  | g :: g2 :: gs => g ++ sep :: joinChar sep (g2 :: gs)

/-- Python `sep.join(parts)` for a one-character separator. -/
def pyJoin (sep : Char) (parts : List String) : String :=
  String.mk (joinChar sep (parts.map String.data))

/-- Whether `needle` occurs as a contiguous segment of the second list. -/
def containsL (needle : List Char) : List Char → Bool
  | [] => isPrefL needle []
  | c :: rest => isPrefL needle (c :: rest) || containsL needle rest

/-- Python `sub in s`. -/
def containsSubstr (s sub : String) : Bool :=
  containsL sub.data s.data

/-- `_csv_to_list`: split on commas, strip items, drop empties (`""` gives `[]`). -/
def _csv_to_list (s : String) : List String :=
  if s == "" then []
  else ((pySplit ',' s).map pyTrim).filter (fun x => x != "")

/-- `_edges_from_csv`: parts containing `>` are split at the first `>` into a
stripped (source, destination) pair; other parts are dropped. -/
def _edges_from_csv (csv : String) : List (String × String) :=
  if csv == "" then []
  else (pySplit ',' csv).filterMap (fun part =>
    match pySplit '>' part with
    | src :: rest@(_ :: _) => some (pyTrim src, pyTrim (pyJoin '>' rest))
    | _ => none)

/-- `_get_predecessors`: sources of the plan edges pointing at `node_id`. -/
def _get_predecessors (plan : Plan) (node_id : String) : List String :=
  ((plan.edges.filter (fun sd => sd.2 == node_id)).map (fun sd => sd.1))

/-- `state.node_status.get(node_id, NodeStatus()).state`: the recorded state of a
node, defaulting to a fresh pending status for unseen ids. -/
def nodeState (s : GraphState) (node_id : String) : String :=
  ((alookup node_id s.node_status).getD {}).state

/-- `_are_predecessors_succeeded` (the source reads the plan from `state.plan`,
which is non-`None` at every call site; here the plan is passed explicitly). -/
def _are_predecessors_succeeded (plan : Plan) (s : GraphState) (node_id : String) : Bool :=
  (_get_predecessors plan node_id).all (fun p => nodeState s p == "succeeded")

/-- `_are_requirements_met`: every parsed `requires` name is a key of the store. -/
def _are_requirements_met (s : GraphState) (node : NodeSpec) : Bool :=
  (_csv_to_list node.requires).all (fun r => (alookup r s.artifacts).isSome)

/-- `_get_runnable_nodes`: declaration-ordered plan nodes that are pending,
precedence-satisfied and requirement-satisfied; `[]` when the plan is unset. -/
def _get_runnable_nodes (s : GraphState) : List NodeSpec :=
  match s.plan with
  | none => []
  | some plan =>
    plan.nodes.filter (fun node =>
      nodeState s node.id == "pending"
      && _are_predecessors_succeeded plan s node.id
      && _are_requirements_met s node)

/-- `_exec_sqlite`: missing/empty db path or an engine exception yield a fail
record; a statement whose stripped upper-casing starts with `SELECT` is a read
(tabular result, row count as `rows_affected`); anything else is a mutation
committed with the engine's `rowcount`. -/
def _exec_sqlite (sql : String) (db_path : Option String) (pathExists : Bool)
    (db : DbResult) (elapsedMs : Nat) : ExecResult :=
  let pathFalsy := match db_path with | none => true | some p => p == ""
  let pathText := match db_path with | none => "None" | some p => p
  if pathFalsy || !pathExists then
    { status := "fail", error := some ("Database path not found: " ++ pathText) }
  else
    match db with
    | .exn e => { status := "fail", error := some e }
    | .ok c =>
      if pyStartsWith (pyUpper (pyTrim sql)) "SELECT" then
        { status := "ok",
          result := some (Value.dict
            [("columns", Value.list (c.columns.map Value.str)),
             ("rows", Value.list (c.rows.map Value.list))]),
          stats := some { elapsed_ms := elapsedMs, rows_affected := (c.rows.length : Int) } }
      else
        { status := "ok", result := none,
          stats := some { elapsed_ms := elapsedMs, rows_affected := c.rowcount } }

/-- The executor handler selected by the `elif` chain on `node["type"].upper()`. -/
inductive NodeHandler : Type where
  | analyzer
  | sql
  | sqlResultAnalyzer
  | unknown
deriving Repr, DecidableEq

/-- Dispatch of `run_node` on the upper-cased node type string. -/
def nodeDispatch (t : String) : NodeHandler :=
  if pyUpper t == "ANALYZER" then .analyzer
  else if pyUpper t == "SQL" then .sql
  else if pyUpper t == "SQL_RESULT_ANALYZER" then .sqlResultAnalyzer
  else .unknown

/-- The best-effort SQL text forwarded to the result analyzer: the last logged
query containing `SELECT` (upper-cased), else the fallback text.  It only feeds
the collaborator prompt, so the oracle absorbs its effect on the reply. -/
def sqlQueryForResult (queries : List String) : String :=
  queries.foldl
    (fun acc q => if containsSubstr (pyUpper q) "SELECT" then q else acc)
    "Unknown (query artifact not found)"

/-- The body of `run_node` once the selected node, its spec and its current
status entry have been fetched: transition `pending → running`, bump both
attempt counters, then dispatch on the node type and classify the outcome. -/
def runNodeCore (s : GraphState) (node_id : String) (node : NodeSpec)
    (st0 : NodeStatus) (o : Oracle) : GraphState :=
  let st1 : NodeStatus := { st0 with state := "running", attempts := st0.attempts + 1 }
  let s1 : GraphState :=
    { s with node_status := aset s.node_status node_id st1,
             total_attempts := s.total_attempts + 1 }
  let required_keys := _csv_to_list node.requires
  match nodeDispatch node.type with
  | .analyzer =>
    let out := o.analyzer
    let artifacts_to_add := out.outputs.getD (Value.dict [])
    let lo : LastOutput :=
      { status := out.status, artifacts := artifacts_to_add, notes := out.notes }
    let stF : NodeStatus :=
      if out.status == "ok" then { st1 with state := "succeeded" }
      else { st1 with state := "failed",
                      last_error := some ("Analyzer failed with status: " ++ out.status) }
    { s1 with last_output := some lo, node_status := aset s1.node_status node_id stF }
  | .sql =>
    let out := o.sqlGen
    let s2 : GraphState := { s1 with executed_queries := s1.executed_queries ++ [out.sql] }
    let exec_result := _exec_sqlite out.sql o.dbPath o.dbPathExists o.db o.elapsedMs
    let produces := _csv_to_list node.produces
    let sql_artifact_key := produces.find? (fun p => pyStartsWith (pyLower p) "sql")
    let result_artifact_key := produces.find? (fun p => pyStartsWith (pyLower p) "result")
    let a1 : List (String × Value) :=
      match sql_artifact_key with
      | some k => [(k, Value.str out.sql)]
      | none => []
    let a2 : List (String × Value) :=
      match result_artifact_key with
      | some k =>
        if exec_result.status == "ok" then
          match exec_result.result with
          | some r => if truthy r then [(k, r)] else []
          | none => []
        else []
      | none => []
    let lo : LastOutput :=
      { status := exec_result.status, artifacts := Value.dict (a1 ++ a2),
        notes := out.notes, stats := exec_result.stats, error := exec_result.error }
    let stF : NodeStatus :=
      if exec_result.status == "ok" then { st1 with state := "succeeded" }
      else { st1 with state := "failed",
                      last_error := some (exec_result.error.getD "SQL execution failed") }
    { s2 with last_output := some lo, node_status := aset s2.node_status node_id stF }
  | .sqlResultAnalyzer =>
    match required_keys.find? (fun k => pyStartsWith k "result_") with
    | none =>
      let msg := "SQL_RESULT_ANALYZER requires a 'result_*' artifact, but none was found."
      let stF : NodeStatus := { st1 with state := "failed", last_error := some msg }
      { s1 with node_status := aset s1.node_status node_id stF,
                last_output := some { status := "fail", artifacts := Value.dict [],
                                      error := some msg } }
    | some _ =>
      let out := o.sqlResult
      let artifacts_to_add := out.outputs.getD (Value.dict [])
      let lo : LastOutput :=
        { status := out.status, artifacts := artifacts_to_add, notes := out.notes }
      let stF : NodeStatus :=
        if out.status == "ok" then { st1 with state := "succeeded" }
        else { st1 with state := "failed",
                        last_error := some "Result summarization failed." }
      { s1 with last_output := some lo, node_status := aset s1.node_status node_id stF }
  | .unknown =>
    let msg := "Unknown node type: " ++ node.type
    let stF : NodeStatus := { st1 with state := "failed", last_error := some msg }
    { s1 with node_status := aset s1.node_status node_id stF,
              last_output := some { status := "fail", artifacts := Value.dict [],
                                    error := some msg } }

/-- `run_node`: a falsy (`None` or empty) current id is a no-op; otherwise fetch
the node spec and status entry (a miss is the raised `StopIteration` /
`KeyError` / `TypeError` of the source) and run the core. -/
def run_node (s : GraphState) (o : Oracle) : Except String GraphState :=
  match s.current_node_id with
  | none => .ok s
  | some node_id =>
    if node_id == "" then .ok s
    else
      match s.plan with
      | none => .error "TypeError: plan is not set"
      | some plan =>
        match plan.nodes.find? (fun n => n.id == node_id) with
        | none => .error "StopIteration"
        | some node =>
          match alookup node_id s.node_status with
          | none => .error "KeyError"
          | some st0 => .ok (runNodeCore s node_id node st0 o)

/-- `select_node`: current id becomes the id of the first runnable node, if any. -/
def select_node (s : GraphState) : GraphState :=
  { s with current_node_id := (_get_runnable_nodes s).head?.map (fun n => n.id) }

/-- `resolve_data`: with a truthy current id, a `succeeded` status entry and a
truthy `last_output`, merge its `artifacts` into the store when it is a dict. -/
def resolve_data (s : GraphState) : Except String GraphState :=
  match s.current_node_id with
  | none => .ok s
  | some node_id =>
    if node_id == "" then .ok s
    else
      match alookup node_id s.node_status with
      | none => .error "KeyError"
      | some st =>
        match s.last_output with
        | none => .ok s
        | some lo =>
          if st.state == "succeeded" then
            match lo.artifacts with
            | Value.dict entries => .ok { s with artifacts := dictUpdate s.artifacts entries }
            | _ => .ok s
          else .ok s

/-- `should_continue`: cap check first, then stall detection on an empty
runnable set; returns the updated state with the routing string. -/
def should_continue (s : GraphState) : GraphState × String :=
  if 20 ≤ s.total_attempts then
    ({ s with issues := s.issues ++ [{ reason := "max_attempts_exceeded" }] }, "end")
  else if (_get_runnable_nodes s).isEmpty then
    if s.node_status.all (fun kv => kv.2.state == "succeeded") then (s, "end")
    else
      ({ s with issues := s.issues ++ [{ reason := "execution_stalled_due_to_failures" }] },
       "end")
  else (s, "continue")

/-- The state mutation of `planner` (lines 183-192) once the collaborator reply
is decoded: install the plan dictionary and register a fresh pending status for
every decoded node. -/
def plannerInstall (s : GraphState) (version : String) (nodes : List NodeSpec)
    (edgesCsv : String) : GraphState :=
  let s1 : GraphState :=
    { s with plan := some { version := version, nodes := nodes,
                            edges := _edges_from_csv edgesCsv } }
  { s1 with node_status := nodes.foldl (fun d n => dsetItem d n.id {}) s1.node_status }

/-- One trip around the compiled LangGraph cycle
`select_node → run_node → resolve_data → should_continue`; the Bool is whether
the conditional edge routes back to `select_node`. -/
def stepIter (s : GraphState) (o : Oracle) : Except String (GraphState × Bool) :=
  match run_node (select_node s) o with
  | .error e => .error e
  | .ok s2 =>
    match resolve_data s2 with
    | .error e => .error e
    | .ok s3 =>
      let r := should_continue s3
      .ok (r.1, r.2 == "continue")

/-- Fuel-indexed unfolding of the scheduler loop: the Bool of the result is
`true` exactly when the loop routed to `end` within the given number of
iterations (`false` means the fuel ran out with the loop still going). -/
def runSteps : Nat → GraphState → (Nat → Oracle) → Except String (GraphState × Bool)
  | 0, s, _ => .ok (s, false)
  | n + 1, s, os =>
    match stepIter s (os 0) with
    | .error e => .error e
    | .ok (s2, cont) =>
      if cont then runSteps n s2 (fun k => os (k + 1)) else .ok (s2, true)

/-- Transitive reachability along plan edges: `Reach edges a b` holds when a
non-empty chain of edges leads from `a` to `b` ("b depends on a"). -/
inductive Reach (edges : List (String × String)) : String → String → Prop where
  | single {a b : String} : (a, b) ∈ edges → Reach edges a b
  | tail {a b c : String} : Reach edges a b → (b, c) ∈ edges → Reach edges a c

/-- Failure isolation invariant: `a` is recorded `failed` and every node
depending (directly or transitively) on `a` is still `pending`. -/
def Blocked (p : Plan) (s : GraphState) (a : String) : Prop :=
  nodeState s a = "failed" ∧ ∀ b, Reach p.edges a b → nodeState s b = "pending"

/-- Global-equals-sum-of-per-node attempt accounting. -/
def sumAttempts (l : List (String × NodeStatus)) : Nat :=
  (l.map (fun kv => kv.2.attempts)).sum

/-- The attempt-accounting invariant of the spec (§8). -/
def AttInv (s : GraphState) : Prop :=
  s.total_attempts = sumAttempts s.node_status

theorem alookup_aset_of_isSome {α : Type} {d : List (String × α)} {k : String} {v : α}
    (h : (alookup k d).isSome) : alookup k (aset d k v) = some v := by
  induction d with
  | nil => simp [alookup] at h
  | cons kv rest ih =>
    by_cases hk : kv.1 = k
    · simp [alookup, aset, hk]
    · simp only [alookup, aset, beq_iff_eq, hk, if_false] at h ⊢
      simp [alookup, hk, ih h]

theorem alookup_aset_ne {α : Type} {d : List (String × α)} {k k' : String} {v : α}
    (h : k' ≠ k) : alookup k' (aset d k v) = alookup k' d := by
  induction d with
  | nil => simp [aset]
  | cons kv rest ih =>
    by_cases hk : kv.1 = k
    · simp [alookup, aset, hk, Ne.symm h, h]
    · simp [alookup, aset, hk, ih]

theorem alookup_append {α : Type} {d e : List (String × α)} {k : String} :
    alookup k (d ++ e) =
      match alookup k d with
      | some v => some v
      | none => alookup k e := by
  induction d with
  | nil => simp [alookup]
  | cons kv rest ih =>
    by_cases hk : kv.1 = k
    · simp [alookup, hk]
    · simp [alookup, hk, ih]

theorem alookup_dsetItem_self {α : Type} {d : List (String × α)} {k : String} {v : α} :
    alookup k (dsetItem d k v) = some v := by
  unfold dsetItem
  by_cases h : (alookup k d).isSome
  · simp [h, alookup_aset_of_isSome h]
  · simp only [h, if_false, Bool.false_eq_true]
    rw [alookup_append]
    simp only [Option.not_isSome_iff_eq_none] at h
    simp [h, alookup]

theorem alookup_dsetItem_ne {α : Type} {d : List (String × α)} {k k' : String} {v : α}
    (h : k' ≠ k) : alookup k' (dsetItem d k v) = alookup k' d := by
  unfold dsetItem
  by_cases hs : (alookup k d).isSome
  · simp [hs, alookup_aset_ne h]
  · simp only [hs, if_false, Bool.false_eq_true]
    rw [alookup_append]
    cases hl : alookup k' d with
    | some v' => simp
    | none => simp [alookup, h, Ne.symm h]

theorem isSome_alookup_dsetItem {α : Type} {d : List (String × α)} {k k' : String} {v : α}
    (h : (alookup k' d).isSome) : (alookup k' (dsetItem d k v)).isSome := by
  by_cases hk : k' = k
  · subst hk; simp [alookup_dsetItem_self]
  · rw [alookup_dsetItem_ne hk]; exact h

theorem alookup_dictUpdate_of_not_mem_keys {α : Type} {d e : List (String × α)} {k : String}
    (h : k ∉ e.map Prod.fst) : alookup k (dictUpdate d e) = alookup k d := by
  induction e generalizing d with
  | nil => rfl
  | cons kv rest ih =>
    simp only [List.map_cons, List.mem_cons, not_or] at h
    show alookup k (dictUpdate (dsetItem d kv.1 kv.2) rest) = alookup k d
    rw [ih h.2, alookup_dsetItem_ne h.1]

theorem isSome_alookup_dictUpdate {α : Type} {d e : List (String × α)} {k : String}
    (h : (alookup k d).isSome) : (alookup k (dictUpdate d e)).isSome := by
  induction e generalizing d with
  | nil => exact h
  | cons kv rest ih =>
    show (alookup k (dictUpdate (dsetItem d kv.1 kv.2) rest)).isSome
    exact ih (isSome_alookup_dsetItem h)

theorem alookup_dictUpdate_of_nodup {α : Type} {d e : List (String × α)} {k : String} {v : α}
    (hnd : (e.map Prod.fst).Nodup) (h : alookup k e = some v) :
    alookup k (dictUpdate d e) = some v := by
  induction e generalizing d with
  | nil => simp [alookup] at h
  | cons kv rest ih =>
    simp only [List.map_cons, List.nodup_cons] at hnd
    show alookup k (dictUpdate (dsetItem d kv.1 kv.2) rest) = some v
    by_cases hk : kv.1 = k
    · subst hk
      simp only [alookup, beq_self_eq_true, if_true, Option.some.injEq] at h
      subst h
      have hout : kv.1 ∉ rest.map Prod.fst := hnd.1
      rw [alookup_dictUpdate_of_not_mem_keys hout, alookup_dsetItem_self]
    · simp only [alookup, beq_iff_eq, hk, if_false] at h
      exact ih hnd.2 h

theorem dictUpdate_append_single {α : Type} {d e : List (String × α)} {k : String} {v : α} :
    dictUpdate d (e ++ [(k, v)]) = dsetItem (dictUpdate d e) k v := by
  unfold dictUpdate
  rw [List.foldl_append]
  rfl

theorem alookup_dictUpdate_append_last {α : Type} {d e : List (String × α)} {k : String} {v : α} :
    alookup k (dictUpdate d (e ++ [(k, v)])) = some v := by
  rw [dictUpdate_append_single, alookup_dsetItem_self]

theorem sumAttempts_aset {l : List (String × NodeStatus)} {k : String}
    {st st' : NodeStatus} (h : alookup k l = some st) :
    sumAttempts (aset l k st') + st.attempts = sumAttempts l + st'.attempts := by
  induction l with
  | nil => simp [alookup] at h
  | cons kv rest ih =>
    by_cases hk : kv.1 = k
    · simp only [alookup, beq_iff_eq, hk, if_true] at h
      cases h
      simp [sumAttempts, aset, hk]
      omega
    · simp only [alookup, beq_iff_eq, hk, if_false] at h
      simp only [sumAttempts, aset, beq_iff_eq, hk, if_false, List.map_cons, List.sum_cons]
      have := ih h
      simp only [sumAttempts] at this
      omega

theorem nodeState_congr {s t : GraphState} (h : s.node_status = t.node_status) :
    nodeState s = nodeState t := by
  funext id
  simp [nodeState, h]

theorem preds_succeeded_congr {p : Plan} {s t : GraphState}
    (h : s.node_status = t.node_status) :
    _are_predecessors_succeeded p s = _are_predecessors_succeeded p t := by
  funext id
  simp [_are_predecessors_succeeded, nodeState_congr h]

theorem reqs_met_congr {s t : GraphState} (h : s.artifacts = t.artifacts) :
    _are_requirements_met s = _are_requirements_met t := by
  funext n
  simp [_are_requirements_met, h]

theorem runnable_congr {s t : GraphState} (h1 : s.plan = t.plan)
    (h2 : s.node_status = t.node_status) (h3 : s.artifacts = t.artifacts) :
    _get_runnable_nodes s = _get_runnable_nodes t := by
  unfold _get_runnable_nodes
  rw [h1]
  simp only [nodeState_congr h2, preds_succeeded_congr h2, reqs_met_congr h3]

theorem mem_runnable_iff {s : GraphState} {n : NodeSpec} :
    n ∈ _get_runnable_nodes s ↔
      ∃ p, s.plan = some p ∧ n ∈ p.nodes ∧ nodeState s n.id = "pending"
        ∧ _are_predecessors_succeeded p s n.id = true ∧ _are_requirements_met s n = true := by
  unfold _get_runnable_nodes
  cases hp : s.plan with
  | none => simp
  | some p => simp [List.mem_filter, and_assoc]

theorem preds_succeeded_iff {p : Plan} {s : GraphState} {id : String} :
    _are_predecessors_succeeded p s id = true ↔
      ∀ e ∈ p.edges, e.2 = id → nodeState s e.1 = "succeeded" := by
  simp only [_are_predecessors_succeeded, _get_predecessors, List.all_eq_true,
    List.mem_map, List.mem_filter, beq_iff_eq]
  constructor
  · rintro h e he hdst
    exact h e.1 ⟨e, ⟨he, hdst⟩, rfl⟩
  · rintro h x ⟨e, ⟨he, hdst⟩, rfl⟩
    exact h e he hdst

theorem reqs_met_iff {s : GraphState} {n : NodeSpec} :
    _are_requirements_met s n = true ↔
      ∀ r ∈ _csv_to_list n.requires, (alookup r s.artifacts).isSome = true := by
  simp [_are_requirements_met, List.all_eq_true]

theorem runnable_sublist {s : GraphState} {p : Plan} (h : s.plan = some p) :
    (_get_runnable_nodes s).Sublist p.nodes := by
  unfold _get_runnable_nodes
  rw [h]
  exact List.filter_sublist _

theorem select_frame (s : GraphState) :
    (select_node s).plan = s.plan ∧ (select_node s).node_status = s.node_status
    ∧ (select_node s).artifacts = s.artifacts ∧ (select_node s).last_output = s.last_output
    ∧ (select_node s).total_attempts = s.total_attempts ∧ (select_node s).issues = s.issues
    ∧ (select_node s).executed_queries = s.executed_queries :=
  ⟨rfl, rfl, rfl, rfl, rfl, rfl, rfl⟩

theorem select_current_some {s : GraphState} {id : String}
    (h : (select_node s).current_node_id = some id) :
    ∃ node, (_get_runnable_nodes s).head? = some node ∧ node ∈ _get_runnable_nodes s
      ∧ node.id = id := by
  simp only [select_node] at h
  cases hl : _get_runnable_nodes s with
  | nil => rw [hl] at h; simp at h
  | cons x rest =>
    rw [hl] at h
    simp only [List.head?, Option.map_some] at h
    cases h
    exact ⟨x, rfl, List.mem_cons_self x rest, rfl⟩

theorem select_current_none {s : GraphState}
    (h : (select_node s).current_node_id = none) : _get_runnable_nodes s = [] := by
  simp only [select_node] at h
  cases hl : _get_runnable_nodes s with
  | nil => rfl
  | cons x rest => rw [hl] at h; simp at h

theorem runNodeCore_frame (s : GraphState) (node_id : String) (node : NodeSpec)
    (st0 : NodeStatus) (o : Oracle) :
    (runNodeCore s node_id node st0 o).plan = s.plan
    ∧ (runNodeCore s node_id node st0 o).current_node_id = s.current_node_id
    ∧ (runNodeCore s node_id node st0 o).artifacts = s.artifacts
    ∧ (runNodeCore s node_id node st0 o).issues = s.issues
    ∧ (runNodeCore s node_id node st0 o).total_attempts = s.total_attempts + 1
    ∧ (runNodeCore s node_id node st0 o).last_output.isSome = true := by
  unfold runNodeCore
  cases nodeDispatch node.type <;> dsimp only <;>
    first
      | exact ⟨rfl, rfl, rfl, rfl, rfl, rfl⟩
      | (split <;> exact ⟨rfl, rfl, rfl, rfl, rfl, rfl⟩)

theorem runNodeCore_status_ne (s : GraphState) (node_id : String) (node : NodeSpec)
    (st0 : NodeStatus) (o : Oracle) {j : String} (hj : j ≠ node_id) :
    alookup j (runNodeCore s node_id node st0 o).node_status = alookup j s.node_status := by
  unfold runNodeCore
  cases nodeDispatch node.type <;> dsimp only <;>
    first
      | rw [alookup_aset_ne hj, alookup_aset_ne hj]
      | (split <;> rw [alookup_aset_ne hj, alookup_aset_ne hj])

theorem runNodeCore_status_self (s : GraphState) (node_id : String) (node : NodeSpec)
    (st0 : NodeStatus) (o : Oracle) (h : alookup node_id s.node_status = some st0) :
    ∃ stF, alookup node_id (runNodeCore s node_id node st0 o).node_status = some stF
      ∧ stF.attempts = st0.attempts + 1
      ∧ (stF.state = "succeeded" ∨ stF.state = "failed") := by
  have hs1 : (alookup node_id
      (aset s.node_status node_id
        { st0 with state := "running", attempts := st0.attempts + 1 })).isSome := by
    rw [alookup_aset_of_isSome (h ▸ rfl)]; rfl
  unfold runNodeCore
  cases nodeDispatch node.type <;> dsimp only
  case analyzer =>
    split <;>
      exact ⟨_, alookup_aset_of_isSome hs1, rfl, by simp⟩
  case sql =>
    split <;>
      exact ⟨_, alookup_aset_of_isSome hs1, rfl, by simp⟩
  case sqlResultAnalyzer =>
    split
    · exact ⟨_, alookup_aset_of_isSome hs1, rfl, by simp⟩
    · split <;>
        exact ⟨_, alookup_aset_of_isSome hs1, rfl, by simp⟩
  case unknown =>
    exact ⟨_, alookup_aset_of_isSome hs1, rfl, by simp⟩

theorem run_node_eq_core {s : GraphState} {o : Oracle} {id : String} {p : Plan}
    {node : NodeSpec} {st0 : NodeStatus} (hc : s.current_node_id = some id)
    (hne : id ≠ "") (hp : s.plan = some p)
    (hf : p.nodes.find? (fun n => n.id == id) = some node)
    (hst : alookup id s.node_status = some st0) :
    run_node s o = .ok (runNodeCore s id node st0 o) := by
  unfold run_node
  rw [hc]
  simp [hne, hp, hf, hst]

theorem run_node_ok_inv {s : GraphState} {o : Oracle} {s2 : GraphState}
    (h : run_node s o = .ok s2) :
    (s2 = s ∧ (s.current_node_id = none ∨ s.current_node_id = some "")) ∨
    (∃ id p node st0, s.current_node_id = some id ∧ id ≠ "" ∧ s.plan = some p
      ∧ p.nodes.find? (fun n => n.id == id) = some node
      ∧ alookup id s.node_status = some st0
      ∧ s2 = runNodeCore s id node st0 o) := by
  unfold run_node at h
  split at h
  next hc =>
    cases h
    exact Or.inl ⟨rfl, Or.inl hc⟩
  next id hc =>
    split at h
    next hid =>
      cases h
      rw [beq_iff_eq] at hid
      exact Or.inl ⟨rfl, Or.inr (hid ▸ hc)⟩
    next hid =>
      rw [beq_iff_eq] at hid
      split at h
      next hp => exact absurd h (by simp)
      next p hp =>
        split at h
        next hf => exact absurd h (by simp)
        next node hf =>
          split at h
          next hst => exact absurd h (by simp)
          next st0 hst =>
            cases h
            exact Or.inr ⟨id, p, node, st0, hc, hid, hp, hf, hst, rfl⟩

theorem resolve_ok_inv {s s2 : GraphState} (h : resolve_data s = .ok s2) :
    s2.plan = s.plan ∧ s2.node_status = s.node_status
    ∧ s2.current_node_id = s.current_node_id ∧ s2.last_output = s.last_output
    ∧ s2.total_attempts = s.total_attempts ∧ s2.issues = s.issues
    ∧ s2.executed_queries = s.executed_queries
    ∧ (s2.artifacts = s.artifacts
       ∨ ∃ id st lo entries, s.current_node_id = some id
          ∧ alookup id s.node_status = some st ∧ st.state = "succeeded"
          ∧ s.last_output = some lo ∧ lo.artifacts = Value.dict entries
          ∧ s2.artifacts = dictUpdate s.artifacts entries) := by
  unfold resolve_data at h
  split at h
  next hc =>
    cases h
    exact ⟨rfl, rfl, rfl, rfl, rfl, rfl, rfl, Or.inl rfl⟩
  next id hc =>
    split at h
    next hid =>
      cases h
      exact ⟨rfl, rfl, rfl, rfl, rfl, rfl, rfl, Or.inl rfl⟩
    next hid =>
      split at h
      next hst => exact absurd h (by simp)
      next st hst =>
        split at h
        next hlo =>
          cases h
          exact ⟨rfl, rfl, rfl, rfl, rfl, rfl, rfl, Or.inl rfl⟩
        next lo hlo =>
          split at h
          next hsc =>
            rw [beq_iff_eq] at hsc
            split at h
            all_goals cases h
            case _ entries ha =>
              exact ⟨rfl, rfl, rfl, rfl, rfl, rfl, rfl,
                Or.inr ⟨id, st, lo, entries, hc, hst, hsc, hlo, ha, rfl⟩⟩
            all_goals exact ⟨rfl, rfl, rfl, rfl, rfl, rfl, rfl, Or.inl rfl⟩
          next hsc =>
            cases h
            exact ⟨rfl, rfl, rfl, rfl, rfl, rfl, rfl, Or.inl rfl⟩

theorem should_continue_cap {s : GraphState} (h : 20 ≤ s.total_attempts) :
    should_continue s
      = ({ s with issues := s.issues ++ [{ reason := "max_attempts_exceeded" }] }, "end") := by
  unfold should_continue
  rw [if_pos h]

theorem should_continue_frame {s : GraphState} :
    (should_continue s).1.plan = s.plan
    ∧ (should_continue s).1.node_status = s.node_status
    ∧ (should_continue s).1.artifacts = s.artifacts
    ∧ (should_continue s).1.current_node_id = s.current_node_id
    ∧ (should_continue s).1.last_output = s.last_output
    ∧ (should_continue s).1.total_attempts = s.total_attempts
    ∧ (should_continue s).1.executed_queries = s.executed_queries := by
  unfold should_continue
  split
  · exact ⟨rfl, rfl, rfl, rfl, rfl, rfl, rfl⟩
  · split
    · split <;> exact ⟨rfl, rfl, rfl, rfl, rfl, rfl, rfl⟩
    · exact ⟨rfl, rfl, rfl, rfl, rfl, rfl, rfl⟩

theorem should_continue_continue_inv {s : GraphState}
    (h : (should_continue s).2 = "continue") :
    ¬ 20 ≤ s.total_attempts ∧ _get_runnable_nodes s ≠ [] ∧ (should_continue s).1 = s := by
  unfold should_continue at h ⊢
  split at h
  · simp at h
  next hcap =>
    split at h
    · split at h <;> simp at h
    next hrun =>
      simp only [List.isEmpty_eq_true] at hrun
      exact ⟨hcap, hrun, by rw [if_neg hcap, if_neg (by simpa using hrun)]⟩

theorem stepIter_ok_inv {s : GraphState} {o : Oracle} {s' : GraphState} {b : Bool}
    (h : stepIter s o = .ok (s', b)) :
    ∃ s2 s3, run_node (select_node s) o = .ok s2 ∧ resolve_data s2 = .ok s3
      ∧ s' = (should_continue s3).1 ∧ b = ((should_continue s3).2 == "continue") := by
  unfold stepIter at h
  split at h
  · exact absurd h (by simp)
  next s2 hrun =>
    split at h
    · exact absurd h (by simp)
    next s3 hres =>
      simp only [Except.ok.injEq, Prod.mk.injEq] at h
      exact ⟨s2, s3, hrun, hres, h.1.symm, h.2.symm⟩

theorem runSteps_preserve (P : GraphState → Prop)
    (hstep : ∀ s o s' b, stepIter s o = .ok (s', b) → P s → P s') :
    ∀ n (os : Nat → Oracle) s s' b, P s → runSteps n s os = .ok (s', b) → P s' := by
  intro n
  induction n with
  | zero =>
    intro os s s' b hP h
    simp only [runSteps, Except.ok.injEq, Prod.mk.injEq] at h
    exact h.1 ▸ hP
  | succ m ih =>
    intro os s s' b hP h
    unfold runSteps at h
    split at h
    · exact absurd h (by simp)
    next s2 cont hit =>
      by_cases hc : cont = true
      · subst hc
        rw [if_pos rfl] at h
        exact ih _ s2 s' b (hstep s (os 0) s2 true hit hP) h
      · simp only [Bool.not_eq_true] at hc
        subst hc
        simp only [Bool.false_eq_true, if_false, Except.ok.injEq, Prod.mk.injEq] at h
        exact h.1 ▸ hstep s (os 0) s2 false hit hP

theorem head_runnable_mem {s : GraphState} {node : NodeSpec}
    (h : (_get_runnable_nodes s).head? = some node) : node ∈ _get_runnable_nodes s := by
  cases hl : _get_runnable_nodes s with
  | nil => rw [hl] at h; simp at h
  | cons x rest =>
    rw [hl] at h
    simp only [List.head?, Option.some.injEq] at h
    exact h ▸ List.mem_cons_self x rest

theorem head_runnable_pending {s : GraphState} {node : NodeSpec}
    (h : (_get_runnable_nodes s).head? = some node) : nodeState s node.id = "pending" := by
  obtain ⟨p, _, _, hpend, _, _⟩ := mem_runnable_iff.mp (head_runnable_mem h)
  exact hpend

theorem stepIter_plan {s : GraphState} {o : Oracle} {s' : GraphState} {b : Bool}
    (h : stepIter s o = .ok (s', b)) : s'.plan = s.plan := by
  obtain ⟨s2, s3, hrun, hres, hs', _⟩ := stepIter_ok_inv h
  have h2 : s2.plan = s.plan := by
    rcases run_node_ok_inv hrun with ⟨heq, _⟩ | ⟨id, p, node, st0, _, _, _, _, _, heq⟩
    · rw [heq]; rfl
    · rw [heq]; exact (runNodeCore_frame _ _ _ _ _).1
  rw [hs', should_continue_frame.1, (resolve_ok_inv hres).1, h2]

theorem stepIter_total_le {s : GraphState} {o : Oracle} {s' : GraphState} {b : Bool}
    (h : stepIter s o = .ok (s', b)) : s'.total_attempts ≤ s.total_attempts + 1 := by
  obtain ⟨s2, s3, hrun, hres, hs', _⟩ := stepIter_ok_inv h
  have h2 : s2.total_attempts ≤ s.total_attempts + 1 := by
    rcases run_node_ok_inv hrun with ⟨heq, _⟩ | ⟨id, p, node, st0, _, _, _, _, _, heq⟩
    · rw [heq]; exact Nat.le_succ _
    · rw [heq, (runNodeCore_frame _ _ _ _ _).2.2.2.2.1]
      exact le_rfl
  rw [hs', should_continue_frame.2.2.2.2.2.1, (resolve_ok_inv hres).2.2.2.2.1]
  exact h2

theorem stepIter_status {s : GraphState} {o : Oracle} {s' : GraphState} {b : Bool}
    {j : String} (h : stepIter s o = .ok (s', b))
    (hj : ∀ node, (_get_runnable_nodes s).head? = some node → node.id ≠ j) :
    alookup j s'.node_status = alookup j s.node_status := by
  obtain ⟨s2, s3, hrun, hres, hs', _⟩ := stepIter_ok_inv h
  have h2 : alookup j s2.node_status = alookup j s.node_status := by
    rcases run_node_ok_inv hrun with ⟨heq, _⟩ | ⟨id, p, node, st0, hc, _, _, _, _, heq⟩
    · rw [heq]; rfl
    · obtain ⟨node', hh, _, hid⟩ := select_current_some hc
      have hne : j ≠ id := fun he => (hj node' hh) (hid.trans he.symm)
      rw [heq, runNodeCore_status_ne _ _ _ _ _ hne]
      rfl
  rw [hs', should_continue_frame.2.1, (resolve_ok_inv hres).2.1]
  exact h2

theorem stepIter_failed_terminal {s : GraphState} {o : Oracle} {s' : GraphState} {b : Bool}
    {j : String} (h : stepIter s o = .ok (s', b)) (hf : nodeState s j = "failed") :
    nodeState s' j = "failed" := by
  have hj : ∀ node, (_get_runnable_nodes s).head? = some node → node.id ≠ j := by
    intro node hh he
    have := head_runnable_pending hh
    rw [he, hf] at this
    exact absurd this (by decide)
  unfold nodeState at hf ⊢
  rw [stepIter_status h hj]
  exact hf

/-- A fixed oracle used by concrete witness scenarios. -/
def oracle0 : Oracle :=
  { analyzer := { status := "ok", outputs := some (Value.dict [("out_a", Value.str "v")]) },
    sqlGen := { sql := "SELECT 1" },
    dbPath := none,
    dbPathExists := false,
    db := .exn "no database",
    elapsedMs := 3,
    sqlResult := { status := "ok", outputs := some (Value.dict []) } }

/-- C1: the Readiness Resolver `_get_runnable_nodes` returns exactly the plan
nodes that are pending, have every incoming-edge source `succeeded`, and have
every `requires` name present in the artifact store; the returned list keeps
the plan's node declaration order (it is a sublist of the declaration list),
and an unset plan yields the empty list.  The Lean embedding is a pure
function of the state, matching the source, which only reads the state. -/
theorem claim_C1 :
    (∀ s : GraphState, s.plan = none → _get_runnable_nodes s = [])
    ∧ (∀ (s : GraphState) (p : Plan), s.plan = some p →
        (∀ n : NodeSpec, n ∈ _get_runnable_nodes s ↔
          (n ∈ p.nodes ∧ nodeState s n.id = "pending"
           ∧ (∀ e ∈ p.edges, e.2 = n.id → nodeState s e.1 = "succeeded")
           ∧ (∀ r ∈ _csv_to_list n.requires, (alookup r s.artifacts).isSome = true)))
        ∧ (_get_runnable_nodes s).Sublist p.nodes) := by
  constructor
  · intro s h
    unfold _get_runnable_nodes
    rw [h]
  · intro s p hp
    refine ⟨fun n => ?_, runnable_sublist hp⟩
    rw [mem_runnable_iff]
    constructor
    · rintro ⟨p', hp', hmem, hpend, hpred, hreq⟩
      rw [hp] at hp'
      cases hp'
      exact ⟨hmem, hpend, preds_succeeded_iff.mp hpred, reqs_met_iff.mp hreq⟩
    · rintro ⟨hmem, hpend, hpred, hreq⟩
      exact ⟨p, hp, hmem, hpend, preds_succeeded_iff.mpr hpred, reqs_met_iff.mpr hreq⟩

def C1nodeA : NodeSpec := { id := "a", type := "SQL", produces := "result_a" }

def C1nodeB : NodeSpec := { id := "b", type := "SQL_RESULT_ANALYZER", requires := "result_a" }

def C1plan : Plan := { version := "1", nodes := [C1nodeA, C1nodeB], edges := [("a", "b")] }

def C1state : GraphState :=
  { plan := some C1plan,
    node_status := [("a", { state := "succeeded", attempts := 1 }), ("b", {})],
    artifacts := [("result_a", Value.dict [("columns", Value.list []), ("rows", Value.list [])])] }

/-- Witness for C1: on a concrete two-node plan where `a` has succeeded and
written `result_a`, the resolver returns exactly `b`, in declaration order. -/
theorem claim_C1_witness :
    _get_runnable_nodes { plan := none } = []
    ∧ C1nodeB ∈ _get_runnable_nodes C1state
    ∧ (_get_runnable_nodes C1state).Sublist C1plan.nodes := by
  refine ⟨claim_C1.1 { plan := none } rfl, ?_, (claim_C1.2 C1state C1plan rfl).2⟩
  exact ((claim_C1.2 C1state C1plan rfl).1 C1nodeB).mpr (by decide)

/-- C10: when no node was selected (`current_node_id` is `None`), both
`run_node` and `resolve_data` return the execution state exactly unchanged:
no attempt counter, node status, artifact, or query log is touched. -/
theorem claim_C10 :
    ∀ (s : GraphState) (o : Oracle), s.current_node_id = none →
      run_node s o = .ok s ∧ resolve_data s = .ok s := by
  intro s o h
  constructor
  · unfold run_node; rw [h]
  · unfold resolve_data; rw [h]

def C10state : GraphState :=
  { plan := some C1plan,
    node_status := [("a", { state := "failed", attempts := 2, last_error := some "boom" })],
    artifacts := [("x", Value.str "1")],
    current_node_id := none,
    executed_queries := ["SELECT 1"],
    total_attempts := 2 }

/-- Witness for C10 at a populated concrete state with no selection. -/
theorem claim_C10_witness :
    run_node C10state oracle0 = .ok C10state ∧ resolve_data C10state = .ok C10state :=
  claim_C10 C10state oracle0 rfl

/-- C4: at the continue check, when the cap is not yet reached and the resolver
returns no runnable node, the run terminates: if some known node is not
`succeeded`, exactly one `execution_stalled_due_to_failures` issue is appended,
otherwise the state is returned untouched; and when the cap is reached exactly
one `max_attempts_exceeded` issue is appended.  In all cases `should_continue`
returns a normal `"end"` value — a structured issue in the state, never a
raised exception. -/
theorem claim_C4 :
    ∀ s : GraphState,
      (¬ 20 ≤ s.total_attempts → _get_runnable_nodes s = [] →
        ((∃ kv ∈ s.node_status, kv.2.state ≠ "succeeded") →
          should_continue s
            = ({ s with issues :=
                  s.issues ++ [{ reason := "execution_stalled_due_to_failures" }] }, "end"))
        ∧ ((∀ kv ∈ s.node_status, kv.2.state = "succeeded") →
          should_continue s = (s, "end")))
      ∧ (20 ≤ s.total_attempts →
          should_continue s
            = ({ s with issues := s.issues ++ [{ reason := "max_attempts_exceeded" }] }, "end")) := by
  intro s
  refine ⟨fun hcap hrun => ⟨fun hex => ?_, fun hall => ?_⟩, should_continue_cap⟩
  · have hallf : s.node_status.all (fun kv => kv.2.state == "succeeded") = false := by
      obtain ⟨kv, hmem, hne⟩ := hex
      rw [List.all_eq_false]
      exact ⟨kv, hmem, by simpa using hne⟩
    unfold should_continue
    rw [if_neg hcap, if_pos (by simpa [List.isEmpty_iff] using hrun), hallf]
    rfl
  · have hallt : s.node_status.all (fun kv => kv.2.state == "succeeded") = true := by
      rw [List.all_eq_true]
      intro kv hmem
      simpa using hall kv hmem
    unfold should_continue
    rw [if_neg hcap, if_pos (by simpa [List.isEmpty_iff] using hrun), hallt]
    rfl

/-- C9: executor dispatch is case-insensitive.  Any type string whose
upper-casing is `ANALYZER`, `SQL` or `SQL_RESULT_ANALYZER` selects the
corresponding handler; the dispatch is `unknown` exactly when the upper-cased
type matches none of the three, and then `run_node` fails the node with the
`Unknown node type` error recorded as its last error. -/
theorem claim_C9 :
    (∀ t : String, pyUpper t = "ANALYZER" → nodeDispatch t = NodeHandler.analyzer)
    ∧ (∀ t : String, pyUpper t = "SQL" → nodeDispatch t = NodeHandler.sql)
    ∧ (∀ t : String, pyUpper t = "SQL_RESULT_ANALYZER" →
        nodeDispatch t = NodeHandler.sqlResultAnalyzer)
    ∧ (∀ t : String, nodeDispatch t = NodeHandler.unknown ↔
        (pyUpper t ≠ "ANALYZER" ∧ pyUpper t ≠ "SQL" ∧ pyUpper t ≠ "SQL_RESULT_ANALYZER"))
    ∧ (∀ (s : GraphState) (o : Oracle) (id : String) (p : Plan) (node : NodeSpec)
        (st0 : NodeStatus),
        s.current_node_id = some id → id ≠ "" → s.plan = some p →
        p.nodes.find? (fun n => n.id == id) = some node →
        alookup id s.node_status = some st0 →
        nodeDispatch node.type = NodeHandler.unknown →
        (run_node s o).map (fun s' =>
          (alookup id s'.node_status).map (fun st => (st.state, st.last_error)))
          = .ok (some ("failed", some ("Unknown node type: " ++ node.type)))) := by
  refine ⟨?_, ?_, ?_, ?_, ?_⟩
  · intro t h; unfold nodeDispatch; rw [h]; decide
  · intro t h; unfold nodeDispatch; rw [h]; decide
  · intro t h; unfold nodeDispatch; rw [h]; decide
  · intro t
    unfold nodeDispatch
    split_ifs with h1 h2 h3 <;>
      simp_all [beq_iff_eq]
  · intro s o id p node st0 hc hne hp hf hst hdisp
    rw [run_node_eq_core hc hne hp hf hst]
    unfold runNodeCore
    rw [hdisp]
    dsimp only
    simp only [Except.map]
    have h0 : (alookup id s.node_status).isSome := by rw [hst]; rfl
    have h1 : ∀ v : NodeStatus, (alookup id (aset s.node_status id v)).isSome := fun v => by
      rw [alookup_aset_of_isSome h0]; rfl
    rw [alookup_aset_of_isSome (h1 _)]
    rfl

def C9node : NodeSpec := { id := "n1", type := "Mystery" }

def C9plan : Plan := { version := "1", nodes := [C9node], edges := [] }

def C9state : GraphState :=
  { plan := some C9plan, node_status := [("n1", {})], current_node_id := some "n1" }

/-- Witness for C9: `sql` and `Analyzer` dispatch case-insensitively, `Mystery`
is unknown, and running the `Mystery` node records the unknown-type error. -/
theorem claim_C9_witness :
    nodeDispatch "sql" = NodeHandler.sql
    ∧ nodeDispatch "Analyzer" = NodeHandler.analyzer
    ∧ nodeDispatch "Mystery" = NodeHandler.unknown
    ∧ (run_node C9state oracle0).map (fun s' =>
        (alookup "n1" s'.node_status).map (fun st => (st.state, st.last_error)))
        = .ok (some ("failed", some ("Unknown node type: " ++ C9node.type))) := by
  refine ⟨claim_C9.2.1 "sql" (by decide), claim_C9.1 "Analyzer" (by decide),
    (claim_C9.2.2.2.1 "Mystery").mpr (by decide), ?_⟩
  exact claim_C9.2.2.2.2 C9state oracle0 "n1" C9plan C9node {} rfl (by decide) rfl rfl rfl
    (by decide)

def C6msg : String :=
  "SQL_RESULT_ANALYZER requires a 'result_*' artifact, but none was found."

def C6node : NodeSpec := { id := "n1", type := "SQL_RESULT_ANALYZER", requires := "resulta" }

def C6plan : Plan := { version := "1", nodes := [C6node], edges := [] }

def C6state : GraphState :=
  { plan := some C6plan, node_status := [("n1", {})],
    artifacts := [("resulta", Value.str "x")], current_node_id := some "n1" }

/-- Counterexample to C1's source claim C6 as stated: the node `n1` of type
`SQL_RESULT_ANALYZER` has the required artifact name `resulta`, which begins
with `result`, and the collaborator would answer `ok`; yet `run_node` fails the
node immediately with the missing-artifact error and a `fail` result record,
because the code tests for the prefix `result_` (with underscore), not
`result`. -/
theorem claim_C6_cex :
    (_csv_to_list C6node.requires).any (fun r => pyStartsWith r "result") = true
    ∧ oracle0.sqlResult.status = "ok"
    ∧ (run_node C6state oracle0).map (fun s' =>
        ((alookup "n1" s'.node_status).map (fun st => (st.state, st.last_error)),
         s'.last_output.map (fun lo => lo.status)))
      = .ok ((some ("failed", some C6msg)), some "fail") := by
  refine ⟨by decide, rfl, by rfl⟩

/-- C6 (amended: the tested prefix is `result_`, case-sensitively, not
`result`): for a node dispatched to `SQL_RESULT_ANALYZER`, if no parsed
`requires` name begins with `result_`, the node fails immediately — its status
becomes `failed` with the descriptive missing-artifact message as `lastError`,
the result record is `fail` with that error and no artifacts, and the outcome
is identical for every possible collaborator reply (no collaborator call);
if some `requires` name begins with `result_`, the collaborator is consulted
and its declared status governs success or failure. -/
theorem claim_C6 :
    ∀ (s : GraphState) (o : Oracle) (id : String) (p : Plan) (node : NodeSpec)
      (st0 : NodeStatus),
      s.current_node_id = some id → id ≠ "" → s.plan = some p →
      p.nodes.find? (fun n => n.id == id) = some node →
      alookup id s.node_status = some st0 →
      nodeDispatch node.type = NodeHandler.sqlResultAnalyzer →
      (((_csv_to_list node.requires).find? (fun k => pyStartsWith k "result_") = none →
          ∀ x : AnalyzerOut,
            (run_node s { o with sqlResult := x }).map (fun s' =>
              ((alookup id s'.node_status).map (fun st => (st.state, st.last_error)),
               s'.last_output.map (fun lo => (lo.status, lo.artifacts, lo.error))))
            = .ok ((some ("failed", some C6msg)),
                   some ("fail", Value.dict [], some C6msg)))
       ∧ (∀ rk, (_csv_to_list node.requires).find? (fun k => pyStartsWith k "result_")
            = some rk →
          (run_node s o).map (fun s' =>
            ((alookup id s'.node_status).map (fun st => st.state),
             s'.last_output.map (fun lo => lo.status)))
          = .ok ((some (if o.sqlResult.status == "ok" then "succeeded" else "failed")),
                 some o.sqlResult.status))) := by
  intro s o id p node st0 hc hne hp hf hst hdisp
  have h0 : (alookup id s.node_status).isSome := by rw [hst]; rfl
  have h1 : ∀ v : NodeStatus, (alookup id (aset s.node_status id v)).isSome := fun v => by
    rw [alookup_aset_of_isSome h0]; rfl
  constructor
  · intro hfind x
    rw [run_node_eq_core hc hne hp hf hst]
    unfold runNodeCore
    rw [hdisp]
    dsimp only
    rw [hfind]
    simp only [Except.map]
    rw [alookup_aset_of_isSome (h1 _)]
    rfl
  · intro rk hfind
    rw [run_node_eq_core hc hne hp hf hst]
    unfold runNodeCore
    rw [hdisp]
    dsimp only
    rw [hfind]
    simp only [Except.map]
    by_cases hok : (o.sqlResult.status == "ok") = true
    · simp only [hok, if_true]
      rw [alookup_aset_of_isSome (h1 _)]
      rfl
    · simp only [Bool.not_eq_true] at hok
      simp only [hok, Bool.false_eq_true, if_false]
      rw [alookup_aset_of_isSome (h1 _)]
      rfl

def C6wNode : NodeSpec :=
  { id := "n1", type := "sql_result_analyzer", requires := "result_a" }

def C6wPlan : Plan := { version := "1", nodes := [C6wNode], edges := [] }

def C6wState : GraphState :=
  { plan := some C6wPlan, node_status := [("n1", {})],
    artifacts := [("result_a", Value.str "x")], current_node_id := some "n1" }

/-- Witness for the amended C6: with required name `result_a` the collaborator
reply (`ok`) drives the node to `succeeded`. -/
theorem claim_C6_witness :
    (run_node C6wState oracle0).map (fun s' =>
      ((alookup "n1" s'.node_status).map (fun st => st.state),
       s'.last_output.map (fun lo => lo.status)))
      = .ok (some "succeeded", some "ok") :=
  (claim_C6 C6wState oracle0 "n1" C6wPlan C6wNode {} rfl (by decide) rfl rfl rfl
    (by decide)).2 "result_a" rfl

def C4state : GraphState :=
  { plan := some C1plan,
    node_status := [("a", { state := "failed", attempts := 1, last_error := some "boom" }),
                    ("b", {})],
    total_attempts := 1 }

def C4capState : GraphState :=
  { plan := some C1plan, node_status := [("a", {}), ("b", {})], total_attempts := 25 }

/-- Witness for C4: a stalled concrete run appends exactly the stall issue, and
a capped concrete run appends exactly the cap issue. -/
theorem claim_C4_witness :
    should_continue C4state
      = ({ C4state with issues :=
            C4state.issues ++ [{ reason := "execution_stalled_due_to_failures" }] }, "end")
    ∧ should_continue C4capState
      = ({ C4capState with issues :=
            C4capState.issues ++ [{ reason := "max_attempts_exceeded" }] }, "end") := by
  constructor
  · exact ((claim_C4 C4state).1 (by decide) (by decide)).1 (by decide)
  · exact (claim_C4 C4capState).2 (by decide)

theorem exec_select_ok {sql dp : String} {c : DbCursor} {ms : Nat} (hdp : dp ≠ "")
    (hsel : pyStartsWith (pyUpper (pyTrim sql)) "SELECT" = true) :
    _exec_sqlite sql (some dp) true (DbResult.ok c) ms
      = { status := "ok",
          result := some (Value.dict
            [("columns", Value.list (c.columns.map Value.str)),
             ("rows", Value.list (c.rows.map Value.list))]),
          stats := some { elapsed_ms := ms, rows_affected := (c.rows.length : Int) } } := by
  unfold _exec_sqlite
  simp [hdp, hsel]

/-- The `run_node → resolve_data` edge of the compiled workflow: run the
selected node, then merge its artifacts. -/
def runResolve (s : GraphState) (o : Oracle) : Except String GraphState :=
  match run_node s o with
  | .error e => .error e
  | .ok s1 => resolve_data s1

/-- C8: a SQL node whose generated statement is classified as a read (stripped
upper-casing starts with `SELECT`) and that succeeds with zero rows ends
`succeeded`, writes the tabular artifact `{columns: [...], rows: []}` under the
node's `result`-prefixed `produces` entry after the merge, and reports
`rows_affected = 0` (the row count) in the result stats. -/
theorem claim_C8 :
    ∀ (s : GraphState) (o : Oracle) (id : String) (p : Plan) (node : NodeSpec)
      (st0 : NodeStatus) (dp : String) (c : DbCursor) (k : String),
      s.current_node_id = some id → id ≠ "" → s.plan = some p →
      p.nodes.find? (fun n => n.id == id) = some node →
      alookup id s.node_status = some st0 →
      nodeDispatch node.type = NodeHandler.sql →
      o.dbPath = some dp → dp ≠ "" → o.dbPathExists = true →
      o.db = DbResult.ok c → c.rows = [] →
      pyStartsWith (pyUpper (pyTrim o.sqlGen.sql)) "SELECT" = true →
      (_csv_to_list node.produces).find? (fun pr => pyStartsWith (pyLower pr) "result")
        = some k →
      (runResolve s o).map (fun s2 =>
          (alookup k s2.artifacts, nodeState s2 id,
           s2.last_output.map (fun lo => (lo.status, lo.stats))))
        = .ok (some (Value.dict [("columns", Value.list (c.columns.map Value.str)),
                                 ("rows", Value.list [])]),
               "succeeded",
               some ("ok", some { elapsed_ms := o.elapsedMs, rows_affected := 0 })) := by
  intro s o id p node st0 dp c k hc hne hp hf hst hdisp hdb hdp hex hdbr hrows hsel hkey
  have h0 : (alookup id s.node_status).isSome := by rw [hst]; rfl
  have h1 : ∀ v : NodeStatus, (alookup id (aset s.node_status id v)).isSome := fun v => by
    rw [alookup_aset_of_isSome h0]; rfl
  unfold runResolve
  rw [run_node_eq_core hc hne hp hf hst]
  unfold runNodeCore
  rw [hdisp]
  dsimp only
  rw [hdb, hex, hdbr, exec_select_ok hdp hsel, hrows, hkey]
  dsimp only
  simp only [beq_self_eq_true, if_true, List.map_nil, List.length_nil, truthy,
    List.isEmpty_cons, Bool.not_false, Nat.cast_zero]
  unfold resolve_data
  simp only [hc]
  rw [show (id == "") = false from beq_eq_false_iff_ne.mpr hne]
  simp only [Bool.false_eq_true, if_false]
  rw [alookup_aset_of_isSome (h1 _)]
  dsimp only
  simp only [beq_self_eq_true, if_true]
  cases hsql : List.find? (fun pr => pyStartsWith (pyLower pr) "sql")
      (_csv_to_list node.produces) with
  | none =>
    dsimp only [Except.map]
    simp only [Except.ok.injEq, Prod.mk.injEq]
    refine ⟨alookup_dictUpdate_append_last (e := []), ?_, rfl⟩
    unfold nodeState
    rw [alookup_aset_of_isSome (h1 _)]
    rfl
  | some k2 =>
    dsimp only [Except.map]
    simp only [Except.ok.injEq, Prod.mk.injEq]
    refine ⟨alookup_dictUpdate_append_last (e := [(k2, Value.str o.sqlGen.sql)]), ?_, rfl⟩
    unfold nodeState
    rw [alookup_aset_of_isSome (h1 _)]
    rfl

def C8node : NodeSpec := { id := "n1", type := "SQL", produces := "sql_q, result_q" }

def C8plan : Plan := { version := "1", nodes := [C8node], edges := [] }

def C8state : GraphState :=
  { plan := some C8plan, node_status := [("n1", {})], current_node_id := some "n1" }

def C8oracle : Oracle :=
  { analyzer := { status := "ok" },
    sqlGen := { sql := "SELECT name FROM users" },
    dbPath := some "db.sqlite",
    dbPathExists := true,
    db := .ok { columns := ["name"], rows := [], rowcount := -1 },
    elapsedMs := 5,
    sqlResult := { status := "ok" } }

/-- Witness for C8: a concrete SQL node whose SELECT returns zero rows ends
`succeeded` with the empty tabular artifact stored and `rows_affected = 0`. -/
theorem claim_C8_witness :
    (runResolve C8state C8oracle).map (fun s2 =>
      (alookup "result_q" s2.artifacts, nodeState s2 "n1",
       s2.last_output.map (fun lo => (lo.status, lo.stats))))
      = .ok (some (Value.dict [("columns", Value.list [Value.str "name"]),
                               ("rows", Value.list [])]),
             "succeeded", some ("ok", some { elapsed_ms := 5, rows_affected := 0 })) :=
  claim_C8 C8state C8oracle "n1" C8plan C8node {} "db.sqlite"
    { columns := ["name"], rows := [], rowcount := -1 } "result_q"
    rfl (by decide) rfl rfl rfl (by decide) rfl (by decide) rfl rfl rfl (by decide) (by decide)

theorem resolve_none {s : GraphState} (h : s.current_node_id = none) :
    resolve_data s = .ok s := by
  unfold resolve_data
  rw [h]

theorem resolve_empty {s : GraphState} (h : s.current_node_id = some "") :
    resolve_data s = .ok s := by
  unfold resolve_data
  rw [h]
  simp

theorem resolve_skip {s : GraphState} {id : String} {st : NodeStatus}
    (hc : s.current_node_id = some id) (hne : id ≠ "")
    (hst : alookup id s.node_status = some st) (hns : st.state ≠ "succeeded") :
    resolve_data s = .ok s := by
  have hne' : (id == "") = false := beq_eq_false_iff_ne.mpr hne
  have hns' : (st.state == "succeeded") = false := beq_eq_false_iff_ne.mpr hns
  unfold resolve_data
  cases hlo : s.last_output with
  | none => simp [hc, hne', hst, hlo]
  | some lo => simp [hc, hne', hst, hlo, hns']

theorem resolve_merge {s : GraphState} {id : String} {st : NodeStatus} {lo : LastOutput}
    {entries : List (String × Value)} (hc : s.current_node_id = some id) (hne : id ≠ "")
    (hst : alookup id s.node_status = some st) (hsc : st.state = "succeeded")
    (hlo : s.last_output = some lo) (ha : lo.artifacts = Value.dict entries) :
    resolve_data s = .ok { s with artifacts := dictUpdate s.artifacts entries } := by
  have hne' : (id == "") = false := beq_eq_false_iff_ne.mpr hne
  have hsc' : (st.state == "succeeded") = true := beq_iff_eq.mpr hsc
  unfold resolve_data
  simp [hc, hne', hst, hlo, hsc', ha]

theorem resolve_nodict {s : GraphState} {id : String} {st : NodeStatus} {lo : LastOutput}
    (hc : s.current_node_id = some id) (hne : id ≠ "")
    (hst : alookup id s.node_status = some st)
    (hlo : s.last_output = some lo)
    (ha : ∀ entries, lo.artifacts ≠ Value.dict entries) :
    resolve_data s = .ok s := by
  have hne' : (id == "") = false := beq_eq_false_iff_ne.mpr hne
  unfold resolve_data
  cases hart : lo.artifacts with
  | dict entries => exact absurd hart (ha entries)
  | nullV =>
    by_cases hsc : (st.state == "succeeded") = true <;> simp [hc, hne', hst, hlo, hart, hsc]
  | boolV b =>
    by_cases hsc : (st.state == "succeeded") = true <;> simp [hc, hne', hst, hlo, hart, hsc]
  | intV n =>
    by_cases hsc : (st.state == "succeeded") = true <;> simp [hc, hne', hst, hlo, hart, hsc]
  | str v =>
    by_cases hsc : (st.state == "succeeded") = true <;> simp [hc, hne', hst, hlo, hart, hsc]
  | list l =>
    by_cases hsc : (st.state == "succeeded") = true <;> simp [hc, hne', hst, hlo, hart, hsc]

theorem failed_ne_succeeded : ("failed" : String) ≠ "succeeded" := by decide

theorem fail_ne_ok : ("fail" : String) ≠ "ok" := by decide

theorem runNodeCore_post (s : GraphState) (node_id : String) (node : NodeSpec)
    (st0 : NodeStatus) (o : Oracle) (hst : alookup node_id s.node_status = some st0) :
    ∃ lo stF, (runNodeCore s node_id node st0 o).last_output = some lo
      ∧ alookup node_id (runNodeCore s node_id node st0 o).node_status = some stF
      ∧ (lo.status = "ok" ↔ stF.state = "succeeded")
      ∧ (stF.state = "succeeded" ∨ stF.state = "failed") := by
  have h0 : (alookup node_id s.node_status).isSome := by rw [hst]; rfl
  have h1 : ∀ v : NodeStatus, (alookup node_id (aset s.node_status node_id v)).isSome :=
    fun v => by rw [alookup_aset_of_isSome h0]; rfl
  unfold runNodeCore
  cases nodeDispatch node.type <;> dsimp only
  case analyzer =>
    by_cases hok : (o.analyzer.status == "ok") = true
    · have heq := beq_iff_eq.mp hok
      simp only [hok, if_true]
      exact ⟨_, _, rfl, alookup_aset_of_isSome (h1 _), by simp [heq], Or.inl rfl⟩
    · simp only [Bool.not_eq_true] at hok
      simp only [hok, Bool.false_eq_true, if_false]
      exact ⟨_, _, rfl, alookup_aset_of_isSome (h1 _),
        ⟨fun h => absurd h (beq_eq_false_iff_ne.mp hok), fun h => absurd h failed_ne_succeeded⟩,
        Or.inr rfl⟩
  case sql =>
    by_cases hok : ((_exec_sqlite o.sqlGen.sql o.dbPath o.dbPathExists o.db
        o.elapsedMs).status == "ok") = true
    · have heq := beq_iff_eq.mp hok
      simp only [hok, if_true]
      exact ⟨_, _, rfl, alookup_aset_of_isSome (h1 _), by simp [heq], Or.inl rfl⟩
    · simp only [Bool.not_eq_true] at hok
      simp only [hok, Bool.false_eq_true, if_false]
      exact ⟨_, _, rfl, alookup_aset_of_isSome (h1 _),
        ⟨fun h => absurd h (beq_eq_false_iff_ne.mp hok), fun h => absurd h failed_ne_succeeded⟩,
        Or.inr rfl⟩
  case sqlResultAnalyzer =>
    cases hfind : (_csv_to_list node.requires).find? (fun k => pyStartsWith k "result_") with
    | none =>
      dsimp only
      exact ⟨_, _, rfl, alookup_aset_of_isSome (h1 _),
        ⟨fun h => absurd h fail_ne_ok, fun h => absurd h failed_ne_succeeded⟩, Or.inr rfl⟩
    | some rk =>
      dsimp only
      by_cases hok : (o.sqlResult.status == "ok") = true
      · have heq := beq_iff_eq.mp hok
        simp only [hok, if_true]
        exact ⟨_, _, rfl, alookup_aset_of_isSome (h1 _), by simp [heq], Or.inl rfl⟩
      · simp only [Bool.not_eq_true] at hok
        simp only [hok, Bool.false_eq_true, if_false]
        exact ⟨_, _, rfl, alookup_aset_of_isSome (h1 _),
          ⟨fun h => absurd h (beq_eq_false_iff_ne.mp hok), fun h => absurd h failed_ne_succeeded⟩,
          Or.inr rfl⟩
  case unknown =>
    exact ⟨_, _, rfl, alookup_aset_of_isSome (h1 _),
      ⟨fun h => absurd h fail_ne_ok, fun h => absurd h failed_ne_succeeded⟩, Or.inr rfl⟩

/-- C7: across one scheduler step, the artifact store is mutated only by a
successful execution.  No existing key ever disappears; when no node was
selected the store is untouched; when a node ran, its result status is `ok`
exactly when the node ended `succeeded`, a non-`ok` result leaves the store
exactly unchanged, and an `ok` result merges the result's artifacts dictionary
into the store — the incoming value wins on every name collision and names not
in the merged dictionary keep their old binding. -/
theorem claim_C7 :
    ∀ (s : GraphState) (o : Oracle) (s' : GraphState) (b : Bool),
      stepIter s o = .ok (s', b) →
      ((∀ k, (alookup k s.artifacts).isSome → (alookup k s'.artifacts).isSome)
       ∧ ((select_node s).current_node_id = none → s'.artifacts = s.artifacts)
       ∧ ((select_node s).current_node_id = some "" → s'.artifacts = s.artifacts)
       ∧ (∀ id, (select_node s).current_node_id = some id → id ≠ "" →
           ∀ lo, s'.last_output = some lo →
             ((lo.status = "ok" ↔ nodeState s' id = "succeeded")
              ∧ (lo.status ≠ "ok" → s'.artifacts = s.artifacts)
              ∧ (∀ entries, lo.status = "ok" → lo.artifacts = Value.dict entries →
                  (s'.artifacts = dictUpdate s.artifacts entries
                   ∧ (∀ k v, (entries.map Prod.fst).Nodup → alookup k entries = some v →
                        alookup k s'.artifacts = some v)
                   ∧ (∀ k, k ∉ entries.map Prod.fst →
                        alookup k s'.artifacts = alookup k s.artifacts)))))) := by
  intro s o s' b h
  obtain ⟨s2, s3, hrun, hres, hs', hb⟩ := stepIter_ok_inv h
  have hart' : s'.artifacts = s3.artifacts := by
    rw [hs']; exact should_continue_frame.2.2.1
  have hlo' : s'.last_output = s3.last_output := by
    rw [hs']; exact should_continue_frame.2.2.2.2.1
  have hns' : s'.node_status = s3.node_status := by
    rw [hs']; exact should_continue_frame.2.1
  rcases run_node_ok_inv hrun with ⟨heq, hnul⟩ | ⟨id, p, node, st0, hc, hne, hp, hf, hst, heq⟩
  · have hres2 : resolve_data s2 = .ok s2 := by
      rcases hnul with hn | hn
      · exact resolve_none (by rw [heq]; exact hn)
      · exact resolve_empty (by rw [heq]; exact hn)
    rw [hres2] at hres
    cases hres
    have harts : s'.artifacts = s.artifacts := by
      rw [hart', heq]; rfl
    refine ⟨fun k hk => by rw [harts]; exact hk, fun _ => harts, fun _ => harts, ?_⟩
    intro id2 hcid2 hne2 lo2 hlo2
    rcases hnul with hn | hn
    · rw [hn] at hcid2; cases hcid2
    · rw [hn] at hcid2; cases hcid2; exact absurd rfl hne2
  · obtain ⟨lo, stF, hlo2, hstF, hiff, hsf⟩ :=
      runNodeCore_post (select_node s) id node st0 o hst
    rw [← heq] at hlo2 hstF
    have hcur2 : s2.current_node_id = some id := by
      rw [heq, (runNodeCore_frame _ _ _ _ _).2.1]; exact hc
    have harts2 : s2.artifacts = s.artifacts := by
      rw [heq]; exact (runNodeCore_frame _ _ _ _ _).2.2.1
    rcases hsf with hsucc | hfail
    · cases hart2 : lo.artifacts
      case dict entries0 =>
        have hres2 : resolve_data s2
            = .ok { s2 with artifacts := dictUpdate s2.artifacts entries0 } :=
          resolve_merge hcur2 hne hstF hsucc hlo2 hart2
        rw [hres2] at hres
        cases hres
        have harts : s'.artifacts = dictUpdate s.artifacts entries0 := by
          rw [hart']
          show (dictUpdate s2.artifacts entries0) = _
          rw [harts2]
        have hstat : nodeState s' id = stF.state := by
          unfold nodeState
          rw [hns']
          show ((alookup id s2.node_status).getD {}).state = _
          rw [hstF]
          rfl
        have hloeq : s'.last_output = some lo := by
          rw [hlo']
          exact hlo2
        refine ⟨?_, ?_, ?_, ?_⟩
        · intro k hk
          rw [harts]
          exact isSome_alookup_dictUpdate hk
        · intro hn; rw [hc] at hn; cases hn
        · intro hn; rw [hc] at hn; cases hn; exact absurd rfl hne
        · intro id2 hcid2 hne2 lo2 hlo3
          rw [hc] at hcid2
          cases hcid2
          rw [hloeq] at hlo3
          cases hlo3
          refine ⟨by rw [hstat]; exact hiff, fun hno => absurd (hiff.mpr hsucc) hno, ?_⟩
          intro entries hok hdict
          rw [hart2] at hdict
          cases hdict
          exact ⟨harts,
            fun k v hnd hkv => by rw [harts]; exact alookup_dictUpdate_of_nodup hnd hkv,
            fun k hk => by rw [harts]; exact alookup_dictUpdate_of_not_mem_keys hk⟩
      all_goals {
        have hnd : ∀ entries, lo.artifacts ≠ Value.dict entries := by
          rw [hart2]; intro entries hcontra; cases hcontra
        have hres2 : resolve_data s2 = .ok s2 :=
          resolve_nodict hcur2 hne hstF hlo2 hnd
        rw [hres2] at hres
        cases hres
        have harts : s'.artifacts = s.artifacts := by rw [hart']; exact harts2
        have hstat : nodeState s' id = stF.state := by
          unfold nodeState
          rw [hns', hstF]
          rfl
        have hloeq : s'.last_output = some lo := by rw [hlo']; exact hlo2
        refine ⟨fun k hk => by rw [harts]; exact hk, ?_, ?_, ?_⟩
        · intro hn; rw [hc] at hn; cases hn
        · intro hn; rw [hc] at hn; cases hn; exact absurd rfl hne
        · intro id2 hcid2 hne2 lo2 hlo3
          rw [hc] at hcid2
          cases hcid2
          rw [hloeq] at hlo3
          cases hlo3
          refine ⟨by rw [hstat]; exact hiff, fun _ => harts, ?_⟩
          intro entries hok hdict
          exact absurd hdict (hnd entries)
      }
    · have hres2 : resolve_data s2 = .ok s2 :=
        resolve_skip hcur2 hne hstF (by rw [hfail]; exact failed_ne_succeeded)
      rw [hres2] at hres
      cases hres
      have harts : s'.artifacts = s.artifacts := by rw [hart']; exact harts2
      have hstat : nodeState s' id = stF.state := by
        unfold nodeState
        rw [hns', hstF]
        rfl
      have hloeq : s'.last_output = some lo := by rw [hlo']; exact hlo2
      refine ⟨fun k hk => by rw [harts]; exact hk, ?_, ?_, ?_⟩
      · intro hn; rw [hc] at hn; cases hn
      · intro hn; rw [hc] at hn; cases hn; exact absurd rfl hne
      · intro id2 hcid2 hne2 lo2 hlo3
        rw [hc] at hcid2
        cases hcid2
        rw [hloeq] at hlo3
        cases hlo3
        refine ⟨by rw [hstat]; exact hiff, fun _ => harts, ?_⟩
        intro entries hok hdict
        exact absurd (hiff.mp hok) (by rw [hfail]; exact failed_ne_succeeded)

def C7node : NodeSpec := { id := "n1", type := "ANALYZER", produces := "out_a" }

def C7plan : Plan := { version := "1", nodes := [C7node], edges := [] }

def C7state : GraphState :=
  { plan := some C7plan, node_status := [("n1", {})],
    artifacts := [("seed", Value.str "v")] }

def C7outs : Value := Value.dict [("out_a", Value.str "w"), ("seed", Value.str "v2")]

def C7oracle : Oracle :=
  { analyzer := { status := "ok", outputs := some C7outs },
    sqlGen := { sql := "SELECT 1" },
    dbPath := none, dbPathExists := false, db := .exn "none", elapsedMs := 0,
    sqlResult := { status := "ok" } }

def C7sFinal : GraphState :=
  { plan := some C7plan,
    node_status := [("n1", { state := "succeeded", attempts := 1 })],
    artifacts := [("seed", Value.str "v2"), ("out_a", Value.str "w")],
    current_node_id := some "n1",
    last_output := some { status := "ok", artifacts := C7outs, notes := some "" },
    executed_queries := [],
    total_attempts := 1,
    issues := [] }

/-- Witness for C7: a succeeding analyzer node merges its artifacts, the
incoming `seed` value overwrites the old one, and no key is lost. -/
theorem claim_C7_witness :
    (alookup "seed" C7sFinal.artifacts).isSome = true
    ∧ C7sFinal.artifacts = dictUpdate C7state.artifacts
        [("out_a", Value.str "w"), ("seed", Value.str "v2")]
    ∧ alookup "seed" C7sFinal.artifacts = some (Value.str "v2") := by
  have h := claim_C7 C7state C7oracle C7sFinal false (by rfl)
  have h4 := h.2.2.2 "n1" (by rfl) (by decide)
    { status := "ok", artifacts := C7outs, notes := some "" } (by rfl)
  have hm := h4.2.2 [("out_a", Value.str "w"), ("seed", Value.str "v2")] rfl rfl
  exact ⟨h.1 "seed" (by rfl), hm.1, hm.2.1 "seed" (Value.str "v2") (by decide) rfl⟩

theorem sumAttempts_append {l e : List (String × NodeStatus)} :
    sumAttempts (l ++ e) = sumAttempts l + sumAttempts e := by
  unfold sumAttempts
  rw [List.map_append, List.sum_append]

theorem sumAttempts_double_aset {ns : List (String × NodeStatus)} {id : String}
    {st0 st1 stF : NodeStatus} (hst : alookup id ns = some st0)
    (ha : st1.attempts = st0.attempts + 1) (hb : stF.attempts = st1.attempts) :
    sumAttempts (aset (aset ns id st1) id stF) = sumAttempts ns + 1 := by
  have hl1 : alookup id (aset ns id st1) = some st1 :=
    alookup_aset_of_isSome (by rw [hst]; rfl)
  have e1 := @sumAttempts_aset _ _ _ st1 hst
  have e2 := @sumAttempts_aset _ _ _ stF hl1
  omega

theorem runNodeCore_sum (s : GraphState) (node_id : String) (node : NodeSpec)
    (st0 : NodeStatus) (o : Oracle) (hst : alookup node_id s.node_status = some st0) :
    sumAttempts (runNodeCore s node_id node st0 o).node_status
      = sumAttempts s.node_status + 1 := by
  unfold runNodeCore
  cases nodeDispatch node.type <;> dsimp only <;>
    first
      | exact sumAttempts_double_aset hst rfl rfl
      | (split <;>
          first
            | exact sumAttempts_double_aset hst rfl rfl
            | (split <;> exact sumAttempts_double_aset hst rfl rfl))

theorem stepIter_attinv {s : GraphState} {o : Oracle} {s' : GraphState} {b : Bool}
    (h : stepIter s o = .ok (s', b)) (hinv : AttInv s) : AttInv s' := by
  obtain ⟨s2, s3, hrun, hres, hs', _⟩ := stepIter_ok_inv h
  have h2 : AttInv s2 := by
    rcases run_node_ok_inv hrun with ⟨heq, _⟩ | ⟨id, p, node, st0, hc, hne, hp, hf, hst, heq⟩
    · rw [heq]; exact hinv
    · unfold AttInv
      rw [heq, (runNodeCore_frame _ _ _ _ _).2.2.2.2.1,
        runNodeCore_sum (select_node s) id node st0 o hst]
      show s.total_attempts + 1 = sumAttempts s.node_status + 1
      rw [hinv]
  have h3 : AttInv s3 := by
    unfold AttInv
    rw [(resolve_ok_inv hres).2.2.2.2.1, (resolve_ok_inv hres).2.1]
    exact h2
  unfold AttInv
  rw [hs', should_continue_frame.2.2.2.2.2.1, should_continue_frame.2.1]
  exact h3

theorem sumAttempts_dsetItem_default {l : List (String × NodeStatus)} {k : String}
    (h : sumAttempts l = 0) : sumAttempts (dsetItem l k {}) = 0 := by
  unfold dsetItem
  by_cases hs : (alookup k l).isSome
  · obtain ⟨st, hst⟩ := Option.isSome_iff_exists.mp hs
    rw [if_pos hs]
    have he := @sumAttempts_aset _ _ _ ({} : NodeStatus) hst
    have hz : ({} : NodeStatus).attempts = 0 := rfl
    omega
  · rw [if_neg hs, sumAttempts_append]
    rw [h]
    rfl

theorem sumAttempts_registerAll (nodes : List NodeSpec) :
    ∀ acc : List (String × NodeStatus), sumAttempts acc = 0 →
      sumAttempts (nodes.foldl (fun d n => dsetItem d n.id {}) acc) = 0 := by
  induction nodes with
  | nil => intro acc h; exact h
  | cons n rest ih =>
    intro acc h
    exact ih _ (sumAttempts_dsetItem_default h)

/-- C5: attempt accounting.  The invariant "global attempt total equals the sum
of all per-node attempt counters" is established by the planner's status-table
initialization from a fresh state, is preserved by every scheduler step (and
hence by any number of steps), and each executed node — the `pending → running`
transition of `run_node` — bumps exactly its own counter by one, leaving every
other node's counter untouched while the global total also rises by one. -/
theorem claim_C5 :
    (∀ (s : GraphState) (o : Oracle) (s' : GraphState) (b : Bool),
        stepIter s o = .ok (s', b) → AttInv s → AttInv s')
    ∧ (∀ (n : Nat) (os : Nat → Oracle) (s s' : GraphState) (b : Bool),
        AttInv s → runSteps n s os = .ok (s', b) → AttInv s')
    ∧ (∀ (s : GraphState) (version : String) (nodes : List NodeSpec) (edgesCsv : String),
        s.node_status = [] → s.total_attempts = 0 →
        AttInv (plannerInstall s version nodes edgesCsv))
    ∧ (∀ (s : GraphState) (o : Oracle) (s2 : GraphState) (id : String) (st0 : NodeStatus),
        run_node s o = .ok s2 → s.current_node_id = some id → id ≠ "" →
        alookup id s.node_status = some st0 →
        ((∃ stF, alookup id s2.node_status = some stF ∧ stF.attempts = st0.attempts + 1
           ∧ (stF.state = "succeeded" ∨ stF.state = "failed"))
         ∧ (∀ j, j ≠ id → alookup j s2.node_status = alookup j s.node_status)
         ∧ s2.total_attempts = s.total_attempts + 1)) := by
  refine ⟨fun s o s' b h hinv => stepIter_attinv h hinv,
    fun n os s s' b hinv h =>
      runSteps_preserve AttInv (fun s o s' b h hP => stepIter_attinv h hP) n os s s' b hinv h,
    ?_, ?_⟩
  · intro s version nodes edgesCsv hns htot
    unfold AttInv plannerInstall
    show s.total_attempts = _
    rw [htot, hns]
    exact (sumAttempts_registerAll nodes [] rfl).symm
  · intro s o s2 id st0 hrun hc hne hst
    rcases run_node_ok_inv hrun with ⟨heq, hnul⟩ | ⟨id2, p, node, st02, hc2, hne2, hp, hf, hst2, heq⟩
    · rcases hnul with hn | hn
      · rw [hn] at hc; cases hc
      · rw [hn] at hc; cases hc; exact absurd rfl hne
    · injection (hc2.symm.trans hc) with hid
      subst hid
      rw [hst2] at hst
      injection hst with hsteq
      subst hsteq
      refine ⟨?_, ?_, ?_⟩
      · rw [heq]
        exact runNodeCore_status_self s _ node _ o hst2
      · intro j hj
        rw [heq]
        exact runNodeCore_status_ne s _ node _ o hj
      · rw [heq]
        exact (runNodeCore_frame _ _ _ _ _).2.2.2.2.1

def C5runState : GraphState := { C7state with current_node_id := some "n1" }

def C5runFinal : GraphState :=
  { plan := some C7plan,
    node_status := [("n1", { state := "succeeded", attempts := 1 })],
    artifacts := [("seed", Value.str "v")],
    current_node_id := some "n1",
    last_output := some { status := "ok", artifacts := C7outs, notes := some "" },
    executed_queries := [],
    total_attempts := 1,
    issues := [] }

/-- Witness for C5 on a concrete one-node run: the invariant holds after a full
step, after planner initialization, and a concrete `run_node` call bumps the
executed node's counter and the global total by one while leaving an unrelated
key's status entry unchanged. -/
theorem claim_C5_witness :
    AttInv C7sFinal
    ∧ AttInv (plannerInstall {} "1" [C7node] "")
    ∧ C5runFinal.total_attempts = C5runState.total_attempts + 1
    ∧ alookup "x" C5runFinal.node_status = alookup "x" C5runState.node_status := by
  have h1 := claim_C5.1 C7state C7oracle C7sFinal false (by rfl) (by rfl)
  have h3 := claim_C5.2.2.1 ({} : GraphState) "1" [C7node] "" rfl rfl
  have h4 := claim_C5.2.2.2 C5runState C7oracle C5runFinal "n1" {} (by rfl) rfl
    (by decide) rfl
  exact ⟨h1, h3, h4.2.2, h4.2.1 "x" (by decide)⟩

theorem Reach_last {edges : List (String × String)} {a b : String}
    (h : Reach edges a b) : ∃ e ∈ edges, e.2 = b := by
  cases h with
  | single he => exact ⟨_, he, rfl⟩
  | tail hr he => exact ⟨_, he, rfl⟩

theorem list_all_congr {α : Type} {l : List α} {f g : α → Bool}
    (h : ∀ x ∈ l, f x = g x) : l.all f = l.all g := by
  induction l with
  | nil => rfl
  | cons x rest ih =>
    simp only [List.all_cons, h x (List.mem_cons_self x rest),
      ih (fun y hy => h y (List.mem_cons_of_mem x hy))]

theorem pending_ne_succeeded : ("pending" : String) ≠ "succeeded" := by decide

theorem stepIter_blocked {s : GraphState} {o : Oracle} {s' : GraphState} {b : Bool}
    {p : Plan} {a : String} (h : stepIter s o = .ok (s', b)) (hp : s.plan = some p)
    (hbl : Blocked p s a) : s'.plan = some p ∧ Blocked p s' a := by
  refine ⟨by rw [stepIter_plan h]; exact hp, stepIter_failed_terminal h hbl.1, ?_⟩
  intro bq hr
  have hj : ∀ node, (_get_runnable_nodes s).head? = some node → node.id ≠ bq := by
    intro node hh he
    obtain ⟨p', hp', hmem, hpend, hpred, hreq⟩ := mem_runnable_iff.mp (head_runnable_mem hh)
    rw [hp] at hp'
    cases hp'
    have hpred' := preds_succeeded_iff.mp hpred
    cases hr with
    | single hedge =>
      have := hpred' (a, bq) hedge (by rw [he])
      rw [hbl.1] at this
      exact absurd this failed_ne_succeeded
    | tail hr2 hedge =>
      rename_i b2
      have := hpred' (b2, bq) hedge (by rw [he])
      rw [hbl.2 b2 hr2] at this
      exact absurd this pending_ne_succeeded
  unfold nodeState
  rw [stepIter_status h hj]
  exact hbl.2 bq hr

/-- C2: failure isolation.  A `failed` node never leaves `failed` across a
scheduler step; when node `a` is failed and every node depending (directly or
transitively) on `a` is still pending, that situation persists for the whole
remainder of the run — no dependent of `a` ever leaves `pending`; and the
precedence readiness of a node `c` that does not depend on `a` is unaffected
by whatever status is recorded for `a`. -/
theorem claim_C2 :
    (∀ (s : GraphState) (o : Oracle) (s' : GraphState) (b : Bool) (j : String),
        stepIter s o = .ok (s', b) → nodeState s j = "failed" → nodeState s' j = "failed")
    ∧ (∀ (n : Nat) (os : Nat → Oracle) (s s' : GraphState) (b : Bool) (p : Plan)
        (a : String),
        s.plan = some p → Blocked p s a → runSteps n s os = .ok (s', b) →
        s'.plan = some p ∧ Blocked p s' a)
    ∧ (∀ (s : GraphState) (p : Plan) (a c : String) (v : NodeStatus),
        ¬ Reach p.edges a c →
        _are_predecessors_succeeded p
            { s with node_status := dsetItem s.node_status a v } c
          = _are_predecessors_succeeded p s c) := by
  refine ⟨fun s o s' b j h hf => stepIter_failed_terminal h hf, ?_, ?_⟩
  · intro n os s s' b p a hp hbl hrun
    exact runSteps_preserve (fun t => t.plan = some p ∧ Blocked p t a)
      (fun t o t' b h hP => stepIter_blocked h hP.1 hP.2) n os s s' b ⟨hp, hbl⟩ hrun
  · intro s p a c v hnr
    unfold _are_predecessors_succeeded
    apply list_all_congr
    intro x hx
    have hedge : ∃ e ∈ p.edges, e.2 = c ∧ e.1 = x := by
      unfold _get_predecessors at hx
      rw [List.mem_map] at hx
      obtain ⟨e, he, hsrc⟩ := hx
      rw [List.mem_filter] at he
      exact ⟨e, he.1, beq_iff_eq.mp he.2, hsrc⟩
    obtain ⟨e, he, hdst, hsrc⟩ := hedge
    have hxa : x ≠ a := by
      intro hxa
      exact hnr (Reach.single (a := a) (b := c) (by rw [← hxa, ← hdst, ← hsrc]; exact he))
    unfold nodeState
    rw [show ({ s with node_status := dsetItem s.node_status a v } : GraphState).node_status
        = dsetItem s.node_status a v from rfl]
    rw [alookup_dsetItem_ne hxa]

def C2plan : Plan :=
  { version := "1",
    nodes := [{ id := "a", type := "SQL" }, { id := "b", type := "SQL" },
              { id := "c", type := "SQL" }],
    edges := [("a", "b"), ("b", "c")] }

def C2state : GraphState :=
  { plan := some C2plan,
    node_status := [("a", { state := "failed", attempts := 1, last_error := some "boom" }),
                    ("b", {}), ("c", {})],
    total_attempts := 1 }

def C2final : GraphState :=
  { C2state with issues := [{ reason := "execution_stalled_due_to_failures" }] }

/-- Witness for C2 on the chain `a → b → c` with `a` failed: one step keeps `a`
failed, a whole run keeps the blocked situation (so `b` and `c` stay pending),
and re-recording `a`'s status does not change the readiness of `a` itself,
which does not depend on `a`. -/
theorem claim_C2_witness :
    nodeState C2final "a" = "failed"
    ∧ (C2final.plan = some C2plan ∧ Blocked C2plan C2final "a")
    ∧ _are_predecessors_succeeded C2plan
        { C2state with
          node_status := dsetItem C2state.node_status "a" { state := "succeeded" } } "a"
      = _are_predecessors_succeeded C2plan C2state "a" := by
  have hblocked : Blocked C2plan C2state "a" := by
    refine ⟨rfl, ?_⟩
    intro bq hr
    obtain ⟨e, he, hd⟩ := Reach_last hr
    rcases (by simpa [C2plan] using he : e = ("a", "b") ∨ e = ("b", "c")) with he2 | he2
    · subst he2; subst hd; rfl
    · subst he2; subst hd; rfl
  have hnor : ¬ Reach C2plan.edges "a" "a" := by
    intro hreach
    obtain ⟨e, he, hd⟩ := Reach_last hreach
    rcases (by simpa [C2plan] using he : e = ("a", "b") ∨ e = ("b", "c")) with he2 | he2 <;>
      (subst he2; exact absurd hd (by decide))
  refine ⟨?_, ?_, ?_⟩
  · exact claim_C2.1 C2state oracle0 C2final false "a" (by rfl) rfl
  · exact claim_C2.2.1 3 (fun _ => oracle0) C2state C2final true C2plan "a" rfl hblocked
      (by rfl)
  · exact claim_C2.2.2 C2state C2plan "a" "a" { state := "succeeded" } hnor

theorem stepIter_cont_lt {s : GraphState} {o : Oracle} {s' : GraphState}
    (h : stepIter s o = .ok (s', true)) : s'.total_attempts < 20 := by
  obtain ⟨s2, s3, hrun, hres, hs', hb⟩ := stepIter_ok_inv h
  have hcont : (should_continue s3).2 = "continue" := beq_iff_eq.mp hb.symm
  obtain ⟨hcap, _, hfix⟩ := should_continue_continue_inv hcont
  rw [hs', hfix]
  omega

theorem stepIter_cont_total {s : GraphState} {o : Oracle} {s' : GraphState}
    (hids : ∀ p, s.plan = some p → ∀ nd ∈ p.nodes, nd.id ≠ "")
    (h : stepIter s o = .ok (s', true)) :
    s'.total_attempts = s.total_attempts + 1 ∧ s'.total_attempts < 20
      ∧ s'.plan = s.plan := by
  obtain ⟨s2, s3, hrun, hres, hs', hb⟩ := stepIter_ok_inv h
  have hcont : (should_continue s3).2 = "continue" := beq_iff_eq.mp hb.symm
  obtain ⟨hcap, hrunnable, hfix⟩ := should_continue_continue_inv hcont
  have hs3 : s' = s3 := by rw [hs', hfix]
  rcases run_node_ok_inv hrun with ⟨heq, hnul⟩ | ⟨id, p, node, st0, hc, hne, hp, hf, hst, heq⟩
  · exfalso
    have hres2 : resolve_data s2 = .ok s2 := by
      rcases hnul with hn | hn
      · exact resolve_none (by rw [heq]; exact hn)
      · exact resolve_empty (by rw [heq]; exact hn)
    rw [hres2] at hres
    cases hres
    have hrs2 : _get_runnable_nodes s2 = _get_runnable_nodes s := by
      apply runnable_congr
      · rw [heq]; rfl
      · rw [heq]; rfl
      · rw [heq]; rfl
    rcases hnul with hn | hn
    · exact hrunnable (by rw [hrs2]; exact select_current_none hn)
    · obtain ⟨node, hh, hmem, hid⟩ := select_current_some hn
      obtain ⟨p, hp, hmem', _, _, _⟩ := mem_runnable_iff.mp hmem
      exact (hids p hp node hmem') hid
  · have htot2 : s2.total_attempts = s.total_attempts + 1 := by
      rw [heq]
      exact (runNodeCore_frame _ _ _ _ _).2.2.2.2.1
    have htot3 : s3.total_attempts = s2.total_attempts := (resolve_ok_inv hres).2.2.2.2.1
    refine ⟨by rw [hs3, htot3, htot2], by rw [hs3]; omega, stepIter_plan h⟩

theorem runSteps_ends :
    ∀ (n : Nat) (s : GraphState) (os : Nat → Oracle) (s' : GraphState) (b : Bool),
      (∀ p, s.plan = some p → ∀ nd ∈ p.nodes, nd.id ≠ "") →
      20 ≤ s.total_attempts + n →
      runSteps (n + 1) s os = .ok (s', b) → b = true := by
  intro n
  induction n with
  | zero =>
    intro s os s' b hids hcap h
    unfold runSteps at h
    split at h
    · exact absurd h (by simp)
    next s2 cont hit =>
      by_cases hc : cont = true
      · subst hc
        rw [if_pos rfl] at h
        have hct := stepIter_cont_total hids hit
        omega
      · simp only [Bool.not_eq_true] at hc
        subst hc
        simp only [Bool.false_eq_true, if_false, Except.ok.injEq, Prod.mk.injEq] at h
        exact h.2.symm
  | succ m ih =>
    intro s os s' b hids hcap h
    unfold runSteps at h
    split at h
    · exact absurd h (by simp)
    next s2 cont hit =>
      by_cases hc : cont = true
      · subst hc
        rw [if_pos rfl] at h
        have hct := stepIter_cont_total hids hit
        refine ih s2 _ s' b (fun p hp => hids p (by rw [← hct.2.2]; exact hp)) ?_ h
        omega
      · simp only [Bool.not_eq_true] at hc
        subst hc
        simp only [Bool.false_eq_true, if_false, Except.ok.injEq, Prod.mk.injEq] at h
        exact h.2.symm

theorem runSteps_total :
    ∀ (n : Nat) (s : GraphState) (os : Nat → Oracle) (s' : GraphState) (b : Bool),
      runSteps n s os = .ok (s', b) →
      s'.total_attempts ≤ max (s.total_attempts + 1) 20 := by
  intro n
  induction n with
  | zero =>
    intro s os s' b h
    simp only [runSteps, Except.ok.injEq, Prod.mk.injEq] at h
    rw [← h.1]
    exact le_max_of_le_left (Nat.le_succ _)
  | succ m ih =>
    intro s os s' b h
    unfold runSteps at h
    split at h
    · exact absurd h (by simp)
    next s2 cont hit =>
      by_cases hc : cont = true
      · subst hc
        rw [if_pos rfl] at h
        have hlt := stepIter_cont_lt hit
        have hih := ih s2 _ s' b h
        have : max (s2.total_attempts + 1) 20 = 20 := max_eq_right (by omega)
        rw [this] at hih
        exact le_max_of_le_right hih
      · simp only [Bool.not_eq_true] at hc
        subst hc
        simp only [Bool.false_eq_true, if_false, Except.ok.injEq, Prod.mk.injEq] at h
        rw [← h.1]
        exact le_max_of_le_left (stepIter_total_le hit)

def C3node : NodeSpec := { id := "", type := "SQL" }

def C3plan : Plan := { version := "1", nodes := [C3node], edges := [] }

def C3cex : GraphState := { plan := some C3plan }

def C3oracles : Nat → Oracle := fun _ => oracle0

/-- Counterexample to C3 as stated: on a plan whose single node has the empty
string as id, the node is runnable forever but `run_node` treats the selected
empty id as falsy and never increments the attempt counter, so the loop state
is a fixed point that keeps routing `continue` — after 21 full iterations
(more than the cap of 20 could ever allow) the run has still not terminated,
and no issue is ever appended.  The scheduler loop therefore does not
terminate for every plan shape. -/
theorem claim_C3_cex :
    stepIter (select_node C3cex) oracle0 = .ok (select_node C3cex, true)
    ∧ runSteps 21 C3cex C3oracles = .ok (select_node C3cex, false)
    ∧ (select_node C3cex).total_attempts = 0
    ∧ (select_node C3cex).issues = [] := by
  exact ⟨by rfl, by rfl, rfl, rfl⟩

/-- C3 (amended: termination holds for every plan whose node ids are all
non-empty; a runnable node with the empty id makes select/run a no-op that
never increments the counter, and the loop then spins forever).  At the
continue check, an attempt total of at least the fixed cap 20 appends exactly
one `max_attempts_exceeded` issue and terminates; under the non-empty-id
proviso the loop reaches `end` within 21 iterations regardless of plan shape
(cycles included, which stall); and starting from a fresh run the global
attempt total — the number of node executions — never exceeds 20. -/
theorem claim_C3 :
    (∀ s : GraphState, 20 ≤ s.total_attempts →
        should_continue s
          = ({ s with issues := s.issues ++ [{ reason := "max_attempts_exceeded" }] }, "end"))
    ∧ (∀ (s : GraphState) (os : Nat → Oracle) (s' : GraphState) (b : Bool),
        (∀ p, s.plan = some p → ∀ nd ∈ p.nodes, nd.id ≠ "") →
        runSteps 21 s os = .ok (s', b) → b = true)
    ∧ (∀ (n : Nat) (s : GraphState) (os : Nat → Oracle) (s' : GraphState) (b : Bool),
        s.total_attempts = 0 → runSteps n s os = .ok (s', b) →
        s'.total_attempts ≤ 20) := by
  refine ⟨fun s h => should_continue_cap h, ?_, ?_⟩
  · intro s os s' b hids h
    exact runSteps_ends 20 s os s' b hids (by omega) h
  · intro n s os s' b h0 h
    have := runSteps_total n s os s' b h
    rw [h0] at this
    simpa using this

def C3capState : GraphState :=
  { plan := some C7plan, node_status := [("n1", {})], total_attempts := 20 }

/-- Witness for the amended C3: the cap appends the issue at a concrete capped
state, and a concrete fresh one-node run ends with at most 20 executions. -/
theorem claim_C3_witness :
    should_continue C3capState
      = ({ C3capState with issues := [{ reason := "max_attempts_exceeded" }] }, "end")
    ∧ C7sFinal.total_attempts ≤ 20 := by
  constructor
  · exact claim_C3.1 C3capState (by decide)
  · exact claim_C3.2.2 21 C7state (fun _ => C7oracle) C7sFinal true rfl (by rfl)
